import Mathlib

/-!
# G29 custom steering wheel: the receiver sketch `src/main.cpp`

A shallow embedding of the sketch that runs on the MCU inside the steering
wheel.  The global variables of the sketch become the fields of `State`, the
ESP-NOW receive callback `OnDataRecv` and the Arduino `loop` become functions
on that state, and the calls the sketch makes to the outside world (the two
`digitalWrite`s and the call to the TM1637 display driver) are returned as the
output of a tick.

Conventions.
* `uint32_t` values are natural numbers below `2^32`; every subtraction on them
  is reduced modulo `2^32` (`sub32`).
* `int8_t` and `int32_t` values are integers; a store into such a variable goes
  through `toInt8` / `toInt32` (two's complement wrap, as gcc does it).
* C division and remainder on `int` truncate toward zero: `Int.tdiv`, `Int.tmod`.
* Time is the number of milliseconds since boot, an unbounded natural number;
  `millis` is what the 32-bit clock of the board shows at that time.
* `Serial` output and `delay` have no effect on the variables and are left out.
-/

namespace G29

/-! ## Machine integers -/

/-- Conversion of an integer to `uint32_t`. -/
def toUInt32 (x : Int) : Nat := (x % 4294967296).toNat

/-- Conversion of an integer to `uint8_t` (kept as an integer in `0..255`). -/
def toUInt8 (x : Int) : Int := x % 256

/-- Conversion of an integer to `int8_t`. -/
def toInt8 (x : Int) : Int := (x + 128) % 256 - 128

/-- Conversion of an integer to `int32_t`. -/
def toInt32 (x : Int) : Int := (x + 2147483648) % 4294967296 - 2147483648

/-- Subtraction `a - b` of two `uint32_t` values. -/
def sub32 (a b : Nat) : Nat := (a % 4294967296 + 4294967296 - b % 4294967296) % 4294967296

/-- Reading of the 32-bit millisecond clock at time `T` (milliseconds since boot). -/
def millis (T : Nat) : Nat := T % 4294967296

/-! ## Constants -/

/-- Pin of the status LED (`const int8_t Status_LED = 4`). -/
def Status_LED : Int := 4

/-- Pin of the PS4 circle button (`const int8_t PS4_Button = 5`). -/
def PS4_Button : Int := 5

/-- Modelled from the spec: the macro `POINT_ON` of the display driver header
`TM1637_6D.h`, which is not among the sources; the spec only calls it `On`.  The
value is the one of the TM1637 driver family. -/
def POINT_ON : Int := 1

/-- Modelled from the spec: the macro `POINT_OFF` of the display driver header
`TM1637_6D.h`, which is not among the sources; the spec only calls it `Off`.  It
is the value a zero-initialised `DispPnt` slot holds. -/
def POINT_OFF : Int := 0

/-! ## Global variables -/

/-- The global variables of the sketch. -/
structure State where
  /-- The field `myData.f` (`int8_t`): payload of the last packet. -/
  myData_f : Int
  /-- The variable `state` (`int8_t`). -/
  state : Int
  /-- The variable `t0` (`uint32_t`): clock reading at the last press. -/
  t0 : Nat
  /-- The variable `t1` (`uint32_t`): clock reading at the last release. -/
  t1 : Nat
  /-- The variable `t2` (`uint32_t`): baseline of the timer. -/
  t2 : Nat
  /-- The variable `timediff` (`uint32_t`): timer value. -/
  timediff : Nat
  /-- The variable `timerstart`. -/
  timerstart : Bool
  /-- The variable `triple_counter` (`int8_t`). -/
  triple_counter : Int
  /-- The variable `received`: flag for a received packet. -/
  received : Bool
deriving DecidableEq, Repr

/-- The initial values of the global variables. -/
def init : State :=
  { myData_f := 0, state := 0, t0 := 0, t1 := 0, t2 := 0, timediff := 0,
    timerstart := false, triple_counter := 0, received := false }

/-! ## The receive callback -/

/-- The callback `OnDataRecv`: a packet with payload `f` arrives at time `T`. -/
def OnDataRecv (s : State) (f : Int) (T : Nat) : State :=
  let s := { s with myData_f := f }
  let s := { s with received := true }
  if s.myData_f = 1 then { s with t0 := millis T } else { s with t1 := millis T }

/-! ## The hold check and the fast-repeat detector -/

/-- The function `fiveSecondsPressed`, its `millis()` read at time `T`. -/
def fiveSecondsPressed (s : State) (T : Nat) : State :=
  if s.state ≠ 0 then s
  else if sub32 (millis T) s.t0 > 5000 then
    let s := { s with timerstart := true }
    { s with t2 := s.t1 }
  else s

/-- The condition `(t1 - t0 < 333) || (t1 - t0 > -333)` of `triplePressReset`:
both comparisons are between `uint32_t` values, `-333` being converted. -/
def fastCond (t0 t1 : Nat) : Bool :=
  decide (sub32 t1 t0 < 333) || decide (sub32 t1 t0 > toUInt32 (-333))

/-- The function `triplePressReset`. -/
def triplePressReset (s : State) : State :=
  if fastCond s.t0 s.t1 then
    let s := { s with triple_counter := toInt8 (s.triple_counter + 1) }
    if s.triple_counter ≥ 5 then
      let s := { s with timediff := 0 }
      let s := { s with triple_counter := 0 }
      { s with timerstart := false }
    else s
  else
    { s with triple_counter := 0 }

/-! ## The display encoder -/

/-- What `showDisplay` asks of the display driver: either `displayError()`, or
`display(DispNum, DispPnt)` with the two six-slot arrays. -/
inductive Display where
  | displayError : Display
  | display (DispNum DispPnt : List Int) : Display
deriving DecidableEq, Repr

/-- The function `showDisplay`; `time` is the `int32_t` argument.  The slots of
`DispNum` are `int8_t`, so every store into them is converted. -/
def showDisplay (time : Int) : Display :=
  let DispNum : List Int := [0, 0, 0, 0, 0, 0]
  let DispPnt : List Int := [0, 0, 0, 0, 0, 0]
  if time = 0 then
    Display.displayError
  else
    let sec : Int := toInt32 (Int.tdiv time 1000)
    let DispNum := DispNum.set 0 (toInt8 (Int.tdiv (Int.tmod time 1000) 100))
    let DispNum := DispNum.set 1 (toInt8 (Int.tmod sec 10))
    let DispNum := DispNum.set 2 (toInt8 (Int.tdiv (Int.tmod sec 60) 10))
    let DispNum := DispNum.set 3 (toInt8 (Int.tmod (Int.tdiv sec 60) 10))
    let DispNum := DispNum.set 4 (toInt8 (Int.tdiv sec 600))
    let DispNum := DispNum.set 5 (toInt8 (Int.tdiv sec 3600))
    if sec < 600 then
      let DispNum := DispNum.set 5 (DispNum.getD 3 0)
      let DispNum := DispNum.set 4 (toInt8 10)
      let DispNum := DispNum.set 3 (DispNum.getD 2 0)
      let DispNum := DispNum.set 2 (DispNum.getD 1 0)
      let DispNum := DispNum.set 1 (toInt8 10)
      let DispPnt := (List.range 6).foldl (fun p i => p.set i (toInt8 POINT_OFF)) DispPnt
      Display.display DispNum DispPnt
    else
      let DispPnt := DispPnt.set 1 (toInt8 (if sec ≥ 1 then POINT_ON else POINT_OFF))
      let DispPnt := DispPnt.set 3 (toInt8 (if sec ≥ 60 then POINT_ON else POINT_OFF))
      let DispPnt := DispPnt.set 5 (toInt8 (if sec ≥ 3600 then POINT_ON else POINT_OFF))
      Display.display DispNum DispPnt

/-! ## The main loop -/

/-- What one pass of `loop` does to the outside world. -/
structure TickOut where
  /-- The `digitalWrite(pin, val)` calls, in order; `val` is a `uint8_t`. -/
  pins : List (Int × Int)
  /-- The argument `loop` passes to `showDisplay`. -/
  shown : Int
  /-- The call `showDisplay` makes to the display driver. -/
  frame : Display
deriving DecidableEq, Repr

/-- The body of `if (received) { ... }` in `loop`; `Th` is the time at which
`fiveSecondsPressed` reads the clock. -/
def processPacket (s : State) (Th : Nat) : State × List (Int × Int) :=
  let s := { s with received := false }
  let s := { s with state := s.myData_f }
  let pins := [(PS4_Button, toUInt8 s.state), (Status_LED, toUInt8 s.state)]
  let s := fiveSecondsPressed s Th
  let s := triplePressReset s
  (s, pins)

/-- One pass of `loop`.  `Th` is the time at which the hold check reads the
clock (used only when a packet is pending), `Td` the time at which
`timediff = millis() - t2` reads it. -/
def loop (s : State) (Th Td : Nat) : State × TickOut :=
  let r : State × List (Int × Int) := if s.received then processPacket s Th else (s, [])
  let s := r.1
  let s := if s.timerstart then { s with timediff := sub32 (millis Td) s.t2 } else s
  (s, { pins := r.2, shown := toInt32 s.timediff, frame := showDisplay (toInt32 s.timediff) })

/-! ## Runs -/

/-- The two clock reads of one pass of `loop`. -/
structure Tick where
  /-- Time of the clock read in `fiveSecondsPressed`. -/
  hold : Nat
  /-- Time of the clock read for `timediff`. -/
  disp : Nat
deriving DecidableEq, Repr

/-- A packet together with the passes of `loop` that follow it before the next
packet arrives: the pass that processes it, then passes with nothing pending. -/
structure Ev where
  /-- Payload: `1` for a press, `0` for a release. -/
  f : Int
  /-- Arrival time of the packet. -/
  arrival : Nat
  /-- The pass of `loop` that processes the packet. -/
  tick : Tick
  /-- Later passes of `loop`, before the next packet. -/
  idle : List Tick
deriving DecidableEq, Repr

/-- Passes of `loop` one after the other. -/
def ticks (s : State) (l : List Tick) : State :=
  l.foldl (fun s k => (loop s k.hold k.disp).1) s

/-- The packet of `e` arrives and is processed by its pass of `loop`. -/
def deliver (s : State) (e : Ev) : State × TickOut :=
  loop (OnDataRecv s e.f e.arrival) e.tick.hold e.tick.disp

/-- The packet of `e` arrives, is processed, and the idle passes of `e` follow. -/
def step (s : State) (e : Ev) : State :=
  ticks (deliver s e).1 e.idle

/-- A sequence of packets, each processed by its own pass of `loop`. -/
def run (s : State) (es : List Ev) : State :=
  es.foldl step s

/-- The state and output right after the pass that processes each packet. -/
def trace (s : State) : List Ev → List (State × TickOut)
  | [] => []
  | e :: es => deliver s e :: trace (step s e) es

/-! ## Auxiliary definitions for the proofs -/

/-- The last statement pair of `loop`: the timer value is refreshed when armed. -/
def refresh (s : State) (Td : Nat) : State :=
  if s.timerstart then { s with timediff := sub32 (millis Td) s.t2 } else s

/-- A press arrives at `T0`, any passes of `loop` follow, then a release arrives
at `T1` and is processed by a pass of `loop` reading the clock at `Th` and `Td`. -/
def pressRelease (s : State) (T0 : Nat) (between : List Tick) (T1 Th Td : Nat) : State :=
  (loop (OnDataRecv (ticks (OnDataRecv s 1 T0) between) 0 T1) Th Td).1

/-- The variables when `loop` is about to call `fiveSecondsPressed` on a packet
with payload `f` that arrived at `T`: the flag is cleared, `state` is set. -/
def latched (s : State) (f : Int) (T : Nat) : State :=
  { OnDataRecv s f T with received := false, state := f }

/-- A press arrives at `T0` and is processed by the pass `k`, the passes `idle`
follow, then a release arrives at `T1` and is processed by a pass of `loop`
reading the clock at `Th` and `Td`. -/
def pressPair (s : State) (T0 : Nat) (k : Tick) (idle : List Tick) (T1 Th Td : Nat) : State :=
  (deliver (step s ⟨1, T0, k, idle⟩) ⟨0, T1, ⟨Th, Td⟩, []⟩).1

/-- A reachable state with the timer armed and four fast transitions counted:
a hold from 1000 ms to 7000 ms, then press, release, press, release 100 ms apart. -/
def armedFour : State :=
  run init [⟨1, 1000, ⟨1003, 1004⟩, []⟩, ⟨0, 7000, ⟨7003, 7004⟩, []⟩,
    ⟨1, 7100, ⟨7103, 7104⟩, []⟩, ⟨0, 7200, ⟨7203, 7204⟩, []⟩,
    ⟨1, 7300, ⟨7303, 7304⟩, []⟩, ⟨0, 7400, ⟨7403, 7404⟩, []⟩]

/-- The clock readings `t0`, `t1` after a packet with payload `f` arrived at `T`. -/
def stamp (t0 t1 : Nat) (f : Int) (T : Nat) : Nat × Nat :=
  if f = 1 then (millis T, t1) else (t0, millis T)

/-- Every packet of the list is a press or a release, is classified fast by
`triplePressReset` when it is processed, and no release of the list makes the
hold check fire.  `t0` and `t1` are the clock readings stored before the list. -/
def fastRun (t0 t1 : Nat) : List Ev → Bool
  | [] => true
  | e :: es =>
    (decide (e.f = 1) || decide (e.f = 0))
      && fastCond (stamp t0 t1 e.f e.arrival).1 (stamp t0 t1 e.f e.arrival).2
      && (decide (e.f = 1) || decide (sub32 (millis e.tick.hold) t0 ≤ 5000))
      && fastRun (stamp t0 t1 e.f e.arrival).1 (stamp t0 t1 e.f e.arrival).2 es

/-- Five consecutive press→release pairs: pair `i` is pressed at `P i` and
released at `R i`; packet `j` of the ten is processed by the pass `k j`, followed
by the passes `idle j`. -/
def fivePairs (P R : Nat → Nat) (k : Nat → Tick) (idle : Nat → List Tick) : List Ev :=
  [⟨1, P 0, k 0, idle 0⟩, ⟨0, R 0, k 1, idle 1⟩, ⟨1, P 1, k 2, idle 2⟩, ⟨0, R 1, k 3, idle 3⟩,
   ⟨1, P 2, k 4, idle 4⟩, ⟨0, R 2, k 5, idle 5⟩, ⟨1, P 3, k 6, idle 6⟩, ⟨0, R 3, k 7, idle 7⟩,
   ⟨1, P 4, k 8, idle 8⟩, ⟨0, R 4, k 9, idle 9⟩]

/-- A reachable state with the timer armed and no fast transition counted: a
hold from 1000 ms to 7000 ms. -/
def armedZero : State :=
  run init [⟨1, 1000, ⟨1003, 1004⟩, []⟩, ⟨0, 7000, ⟨7003, 7004⟩, []⟩]

/-- A pass of `loop` three and four milliseconds after the time `T`. -/
def soonAfter (T : Nat) : Tick := ⟨T + 3, T + 4⟩

/-- The first five packets of the signal `10_10_10`: press, release, press,
release, press; packet `j` is processed by the pass `k j`, followed by the
passes `idle j`. -/
def tenTenTen (P1 R1 P2 R2 P3 : Nat) (k : Nat → Tick) (idle : Nat → List Tick) : List Ev :=
  [⟨1, P1, k 0, idle 0⟩, ⟨0, R1, k 1, idle 1⟩, ⟨1, P2, k 2, idle 2⟩, ⟨0, R2, k 3, idle 3⟩,
   ⟨1, P3, k 4, idle 4⟩]

/-- The signal `10_10_10` up to the pass of `loop` that processes the third
release, which arrives at `R3`: the state and the output of that pass. -/
def stopGesture (s : State) (P1 R1 P2 R2 P3 R3 : Nat) (k : Nat → Tick)
    (idle : Nat → List Tick) : State × TickOut :=
  deliver (run s (tenTenTen P1 R1 P2 R2 P3 k idle)) ⟨0, R3, k 5, []⟩

/-- A short run: press at 1000 ms, release at 1200 ms, press at 5000 ms. -/
def shortRun : List Ev :=
  [⟨1, 1000, soonAfter 1000, []⟩, ⟨0, 1200, soonAfter 1200, [soonAfter 1210]⟩,
   ⟨1, 5000, soonAfter 5000, []⟩]

/-- Reading a frame of the full layout (`sec ≥ 600`) back into seconds, in the
words of the spec: hours are digit 5, minutes are `10 * digit 4 + digit 3`,
seconds are `10 * digit 2 + digit 1`; the tenths in digit 0 are ignored. -/
def decodeFull (d : List Int) : Int :=
  d.getD 5 0 * 3600 + (10 * d.getD 4 0 + d.getD 3 0) * 60 + (10 * d.getD 2 0 + d.getD 1 0)

/-- Reading a frame of the short layout (`sec < 600`) back into seconds, in the
words of the spec: hours are 0, minutes are digit 5, seconds are
`10 * digit 3 + digit 2`; the tenths in digit 0 are ignored. -/
def decodeShort (d : List Int) : Int :=
  0 * 3600 + d.getD 5 0 * 60 + (10 * d.getD 3 0 + d.getD 2 0)

/-- Reading the frame `showDisplay` produced for `elapsedMs` back into seconds
under the layout rules of the spec; the sentinel carries no digits. -/
def decodeFrame (elapsedMs : Int) : Display → Option Int
  | Display.displayError => none
  | Display.display d _ => some (if elapsedMs / 1000 < 600 then decodeShort d else decodeFull d)

/-- The value the spec calls `BLANK`: the digit value 10. -/
def BLANK : Int := 10

/-! ## Arbitrary interleavings of packets and passes of `loop` -/

/-- What can happen to the sketch after `setup`: the receive callback runs
with payload `f` at time `T`, or `loop` makes one pass with its two clock reads. -/
inductive Action where
  | recv (f : Int) (T : Nat) : Action
  | tick (Th Td : Nat) : Action
deriving DecidableEq, Repr

/-- The variables after one action. -/
def act (s : State) : Action → State
  | Action.recv f T => OnDataRecv s f T
  | Action.tick Th Td => (loop s Th Td).1

/-- The variables after a sequence of actions, in any order and at any times. -/
def exec (s : State) (l : List Action) : State :=
  l.foldl act s

/-- A release arrives at 6000 ms and is processed 3 ms later. -/
def lateRelease : Ev := ⟨0, 6000, soonAfter 6000, []⟩

/-- A packet with payload 2 arrives at 1000 ms and is processed 3 ms later. -/
def oddPacket : Ev := ⟨2, 1000, soonAfter 1000, []⟩

/-- A hold from 1000 ms to 7000 ms whose release is still pending. -/
def holdPending : List Action :=
  [Action.recv 1 1000, Action.tick 1003 1004, Action.tick 1013 1014, Action.recv 0 7000]

/-- The variables at the call of `triplePressReset` in a pass of `loop` that
processes a packet: the flag is cleared, `state` is set and the hold check has
run, its clock read at `Th`. -/
def atDetectorCall (s : State) (Th : Nat) : State :=
  fiveSecondsPressed { s with received := false, state := s.myData_f } Th

/-- A hold from 1000 ms to 7000 ms, then press, release, press, release 100 ms
apart, each processed 3 ms after it arrives, then a press at 7500 ms that is
still pending: the fifth fast transition in a row. -/
def fifthPending : List Action :=
  [Action.recv 1 1000, Action.tick 1003 1004, Action.recv 0 7000, Action.tick 7003 7004,
   Action.recv 1 7100, Action.tick 7103 7104, Action.recv 0 7200, Action.tick 7203 7204,
   Action.recv 1 7300, Action.tick 7303 7304, Action.recv 0 7400, Action.tick 7403 7404,
   Action.recv 1 7500]

/-- A state with the timer armed 296 ms before the 32-bit clock wraps. -/
def armedBeforeWrap : State :=
  { init with timerstart := true, t2 := 4294967000 }

/-! ## The functions without their intermediate bindings -/

theorem toUInt32_neg333 : toUInt32 (-333) = 4294966963 := by decide

theorem sub32_millis (A B : Nat) (h : A ≤ B) (hd : B - A < 4294967296) :
    sub32 (millis B) (millis A) = B - A := by
  unfold sub32 millis; omega

theorem OnDataRecv_eq (s : State) (f : Int) (T : Nat) :
    OnDataRecv s f T =
      if f = 1 then { s with myData_f := f, received := true, t0 := millis T }
      else { s with myData_f := f, received := true, t1 := millis T } := rfl

theorem fiveSecondsPressed_eq (s : State) (T : Nat) :
    fiveSecondsPressed s T =
      if s.state ≠ 0 then s
      else if sub32 (millis T) s.t0 > 5000 then { s with timerstart := true, t2 := s.t1 }
      else s := rfl

theorem triplePressReset_eq (s : State) :
    triplePressReset s =
      if fastCond s.t0 s.t1 then
        if toInt8 (s.triple_counter + 1) ≥ 5 then
          { s with timediff := 0, triple_counter := 0, timerstart := false }
        else { s with triple_counter := toInt8 (s.triple_counter + 1) }
      else { s with triple_counter := 0 } := rfl

/-- The state after the body of `if (received)`. -/
theorem processPacket_fst (s : State) (Th : Nat) :
    (processPacket s Th).1 =
      triplePressReset (fiveSecondsPressed
        { s with received := false, state := s.myData_f } Th) := rfl

theorem processPacket_snd (s : State) (Th : Nat) :
    (processPacket s Th).2 =
      [(PS4_Button, toUInt8 s.myData_f), (Status_LED, toUInt8 s.myData_f)] := rfl

theorem loop_fst_eq (s : State) (Th Td : Nat) :
    (loop s Th Td).1 = refresh (if s.received then (processPacket s Th).1 else s) Td := by
  unfold loop refresh
  by_cases hr : s.received = true
  · rw [if_pos hr, if_pos hr]
  · rw [if_neg hr, if_neg hr]

theorem loop_snd_eq (s : State) (Th Td : Nat) :
    (loop s Th Td).2 =
      { pins := if s.received then (processPacket s Th).2 else [],
        shown := toInt32 (loop s Th Td).1.timediff,
        frame := showDisplay (toInt32 (loop s Th Td).1.timediff) } := by
  unfold loop
  by_cases hr : s.received = true
  · rw [if_pos hr, if_pos hr]
  · rw [if_neg hr, if_neg hr]

theorem loop_shown (s : State) (Th Td : Nat) :
    (loop s Th Td).2.shown = toInt32 (loop s Th Td).1.timediff := by
  rw [loop_snd_eq]

theorem loop_frame (s : State) (Th Td : Nat) :
    (loop s Th Td).2.frame = showDisplay (toInt32 (loop s Th Td).1.timediff) := by
  rw [loop_snd_eq]

theorem loop_pins (s : State) (Th Td : Nat) :
    (loop s Th Td).2.pins = if s.received then (processPacket s Th).2 else [] := by
  rw [loop_snd_eq]

/-! ## Which variables each function leaves alone -/

@[simp] theorem refresh_t0 (s : State) (Td : Nat) : (refresh s Td).t0 = s.t0 := by
  unfold refresh; split_ifs <;> rfl
@[simp] theorem refresh_t1 (s : State) (Td : Nat) : (refresh s Td).t1 = s.t1 := by
  unfold refresh; split_ifs <;> rfl
@[simp] theorem refresh_t2 (s : State) (Td : Nat) : (refresh s Td).t2 = s.t2 := by
  unfold refresh; split_ifs <;> rfl
@[simp] theorem refresh_timerstart (s : State) (Td : Nat) :
    (refresh s Td).timerstart = s.timerstart := by
  unfold refresh; split_ifs <;> rfl
@[simp] theorem refresh_triple_counter (s : State) (Td : Nat) :
    (refresh s Td).triple_counter = s.triple_counter := by
  unfold refresh; split_ifs <;> rfl
@[simp] theorem refresh_state (s : State) (Td : Nat) : (refresh s Td).state = s.state := by
  unfold refresh; split_ifs <;> rfl
@[simp] theorem refresh_myData_f (s : State) (Td : Nat) :
    (refresh s Td).myData_f = s.myData_f := by
  unfold refresh; split_ifs <;> rfl
@[simp] theorem refresh_received (s : State) (Td : Nat) :
    (refresh s Td).received = s.received := by
  unfold refresh; split_ifs <;> rfl
theorem refresh_timediff (s : State) (Td : Nat) :
    (refresh s Td).timediff
      = if s.timerstart then sub32 (millis Td) s.t2 else s.timediff := by
  unfold refresh; split_ifs <;> rfl

@[simp] theorem fiveSecondsPressed_t0 (s : State) (T : Nat) :
    (fiveSecondsPressed s T).t0 = s.t0 := by
  rw [fiveSecondsPressed_eq]; split_ifs <;> rfl
@[simp] theorem fiveSecondsPressed_t1 (s : State) (T : Nat) :
    (fiveSecondsPressed s T).t1 = s.t1 := by
  rw [fiveSecondsPressed_eq]; split_ifs <;> rfl
@[simp] theorem fiveSecondsPressed_state (s : State) (T : Nat) :
    (fiveSecondsPressed s T).state = s.state := by
  rw [fiveSecondsPressed_eq]; split_ifs <;> rfl
@[simp] theorem fiveSecondsPressed_myData_f (s : State) (T : Nat) :
    (fiveSecondsPressed s T).myData_f = s.myData_f := by
  rw [fiveSecondsPressed_eq]; split_ifs <;> rfl
@[simp] theorem fiveSecondsPressed_received (s : State) (T : Nat) :
    (fiveSecondsPressed s T).received = s.received := by
  rw [fiveSecondsPressed_eq]; split_ifs <;> rfl
@[simp] theorem fiveSecondsPressed_triple_counter (s : State) (T : Nat) :
    (fiveSecondsPressed s T).triple_counter = s.triple_counter := by
  rw [fiveSecondsPressed_eq]; split_ifs <;> rfl
@[simp] theorem fiveSecondsPressed_timediff (s : State) (T : Nat) :
    (fiveSecondsPressed s T).timediff = s.timediff := by
  rw [fiveSecondsPressed_eq]; split_ifs <;> rfl

@[simp] theorem triplePressReset_t0 (s : State) : (triplePressReset s).t0 = s.t0 := by
  rw [triplePressReset_eq]; split_ifs <;> rfl
@[simp] theorem triplePressReset_t1 (s : State) : (triplePressReset s).t1 = s.t1 := by
  rw [triplePressReset_eq]; split_ifs <;> rfl
@[simp] theorem triplePressReset_t2 (s : State) : (triplePressReset s).t2 = s.t2 := by
  rw [triplePressReset_eq]; split_ifs <;> rfl
@[simp] theorem triplePressReset_state (s : State) :
    (triplePressReset s).state = s.state := by
  rw [triplePressReset_eq]; split_ifs <;> rfl
@[simp] theorem triplePressReset_myData_f (s : State) :
    (triplePressReset s).myData_f = s.myData_f := by
  rw [triplePressReset_eq]; split_ifs <;> rfl
@[simp] theorem triplePressReset_received (s : State) :
    (triplePressReset s).received = s.received := by
  rw [triplePressReset_eq]; split_ifs <;> rfl

@[simp] theorem loop_t0 (s : State) (Th Td : Nat) : (loop s Th Td).1.t0 = s.t0 := by
  rw [loop_fst_eq, refresh_t0]; split_ifs <;> simp [processPacket_fst]
@[simp] theorem loop_t1 (s : State) (Th Td : Nat) : (loop s Th Td).1.t1 = s.t1 := by
  rw [loop_fst_eq, refresh_t1]; split_ifs <;> simp [processPacket_fst]
@[simp] theorem loop_myData_f (s : State) (Th Td : Nat) :
    (loop s Th Td).1.myData_f = s.myData_f := by
  rw [loop_fst_eq, refresh_myData_f]; split_ifs <;> simp [processPacket_fst]
@[simp] theorem loop_received (s : State) (Th Td : Nat) :
    (loop s Th Td).1.received = false := by
  rw [loop_fst_eq, refresh_received]
  split_ifs with h
  · simp [processPacket_fst]
  · simpa using h

/-- A pass of `loop` with nothing pending only refreshes the timer value. -/
theorem loop_idle (s : State) (Th Td : Nat) (h : s.received = false) :
    (loop s Th Td).1 = refresh s Td := by
  rw [loop_fst_eq, h]; rfl

theorem ticks_cons (s : State) (k : Tick) (l : List Tick) :
    ticks s (k :: l) = ticks (loop s k.hold k.disp).1 l := rfl

@[simp] theorem ticks_t0 (l : List Tick) (s : State) : (ticks s l).t0 = s.t0 := by
  induction l generalizing s with
  | nil => rfl
  | cons k l ih => rw [ticks_cons, ih, loop_t0]

@[simp] theorem ticks_t1 (l : List Tick) (s : State) : (ticks s l).t1 = s.t1 := by
  induction l generalizing s with
  | nil => rfl
  | cons k l ih => rw [ticks_cons, ih, loop_t1]

@[simp] theorem ticks_myData_f (l : List Tick) (s : State) :
    (ticks s l).myData_f = s.myData_f := by
  induction l generalizing s with
  | nil => rfl
  | cons k l ih => rw [ticks_cons, ih, loop_myData_f]

/-- Passes of `loop` with nothing pending leave everything but `timediff`. -/
theorem ticks_idle (l : List Tick) (s : State) (h : s.received = false) :
    (ticks s l).received = false ∧ (ticks s l).timerstart = s.timerstart
      ∧ (ticks s l).triple_counter = s.triple_counter ∧ (ticks s l).t2 = s.t2
      ∧ (ticks s l).state = s.state
      ∧ (s.timerstart = false → (ticks s l).timediff = s.timediff) := by
  induction l generalizing s with
  | nil => exact ⟨h, rfl, rfl, rfl, rfl, fun _ => rfl⟩
  | cons k l ih =>
    rw [ticks_cons, loop_idle s _ _ h]
    obtain ⟨h1, h2, h3, h4, h5, h6⟩ := ih (refresh s k.disp) (by simpa using h)
    refine ⟨h1, by simpa using h2, by simpa using h3, by simpa using h4,
      by simpa using h5, fun hf => ?_⟩
    rw [h6 (by simpa using hf), refresh_timediff, hf]; rfl

/-! ## The hold check and the detector on their two branches -/

theorem hold_fires (s : State) (T : Nat) (h0 : s.state = 0)
    (h : sub32 (millis T) s.t0 > 5000) :
    fiveSecondsPressed s T = { s with timerstart := true, t2 := s.t1 } := by
  rw [fiveSecondsPressed_eq, if_neg (by simp [h0]), if_pos h]

theorem hold_quiet (s : State) (T : Nat)
    (h : s.state ≠ 0 ∨ sub32 (millis T) s.t0 ≤ 5000) :
    fiveSecondsPressed s T = s := by
  rw [fiveSecondsPressed_eq]
  split_ifs with h1 h2
  · rfl
  · rcases h with h | h
    · exact absurd h h1
    · omega
  · rfl

theorem fastCond_iff (t0 t1 : Nat) :
    fastCond t0 t1 = true ↔ sub32 t1 t0 < 333 ∨ sub32 t1 t0 > 4294966963 := by
  unfold fastCond; rw [toUInt32_neg333]; simp

theorem slow_resets_counter (s : State) (h : fastCond s.t0 s.t1 = false) :
    triplePressReset s = { s with triple_counter := 0 } := by
  rw [triplePressReset_eq, h]; rfl

/-! ## One delivered packet -/

@[simp] theorem latched_t0 (s : State) (f : Int) (T : Nat) :
    (latched s f T).t0 = if f = 1 then millis T else s.t0 := by
  unfold latched; rw [OnDataRecv_eq]; split_ifs <;> rfl
@[simp] theorem latched_t1 (s : State) (f : Int) (T : Nat) :
    (latched s f T).t1 = if f = 1 then s.t1 else millis T := by
  unfold latched; rw [OnDataRecv_eq]; split_ifs <;> rfl
@[simp] theorem latched_t2 (s : State) (f : Int) (T : Nat) :
    (latched s f T).t2 = s.t2 := by
  unfold latched; rw [OnDataRecv_eq]; split_ifs <;> rfl
@[simp] theorem latched_state (s : State) (f : Int) (T : Nat) :
    (latched s f T).state = f := rfl
@[simp] theorem latched_myData_f (s : State) (f : Int) (T : Nat) :
    (latched s f T).myData_f = f := by
  unfold latched; rw [OnDataRecv_eq]; split_ifs <;> rfl
@[simp] theorem latched_timerstart (s : State) (f : Int) (T : Nat) :
    (latched s f T).timerstart = s.timerstart := by
  unfold latched; rw [OnDataRecv_eq]; split_ifs <;> rfl
@[simp] theorem latched_triple_counter (s : State) (f : Int) (T : Nat) :
    (latched s f T).triple_counter = s.triple_counter := by
  unfold latched; rw [OnDataRecv_eq]; split_ifs <;> rfl
@[simp] theorem latched_timediff (s : State) (f : Int) (T : Nat) :
    (latched s f T).timediff = s.timediff := by
  unfold latched; rw [OnDataRecv_eq]; split_ifs <;> rfl

/-- The pass of `loop` that processes a packet, as the chain of its calls. -/
theorem deliver_fst (s : State) (e : Ev) :
    (deliver s e).1 =
      refresh (triplePressReset (fiveSecondsPressed (latched s e.f e.arrival) e.tick.hold))
        e.tick.disp := by
  have hr : (OnDataRecv s e.f e.arrival).received = true := by
    rw [OnDataRecv_eq]; split_ifs <;> rfl
  have hf : (OnDataRecv s e.f e.arrival).myData_f = e.f := by
    rw [OnDataRecv_eq]; split_ifs <;> rfl
  unfold deliver latched
  rw [loop_fst_eq, hr, if_pos rfl, processPacket_fst]
  simp only [hf]

theorem step_eq (s : State) (e : Ev) : step s e = ticks (deliver s e).1 e.idle := rfl

theorem deliver_received (s : State) (e : Ev) : (deliver s e).1.received = false := by
  unfold deliver; exact loop_received _ _ _

@[simp] theorem step_t0 (s : State) (e : Ev) :
    (step s e).t0 = if e.f = 1 then millis e.arrival else s.t0 := by
  rw [step_eq, ticks_t0, deliver_fst]; simp
@[simp] theorem step_t1 (s : State) (e : Ev) :
    (step s e).t1 = if e.f = 1 then s.t1 else millis e.arrival := by
  rw [step_eq, ticks_t1, deliver_fst]; simp
theorem step_timerstart (s : State) (e : Ev) :
    (step s e).timerstart = (deliver s e).1.timerstart :=
  (ticks_idle e.idle _ (deliver_received s e)).2.1
theorem step_triple_counter (s : State) (e : Ev) :
    (step s e).triple_counter = (deliver s e).1.triple_counter :=
  (ticks_idle e.idle _ (deliver_received s e)).2.2.1
theorem step_timediff (s : State) (e : Ev) (h : (deliver s e).1.timerstart = false) :
    (step s e).timediff = (deliver s e).1.timediff :=
  (ticks_idle e.idle _ (deliver_received s e)).2.2.2.2.2 h

/-! ## The detector never arms, and disarms only on reaching five -/

theorem triplePressReset_timerstart_le (s : State)
    (h : (triplePressReset s).timerstart = true) : s.timerstart = true := by
  rw [triplePressReset_eq] at h
  split_ifs at h <;> exact h

theorem triplePressReset_below (s : State) (h0 : 0 ≤ s.triple_counter)
    (h3 : s.triple_counter ≤ 3) :
    (triplePressReset s).timerstart = s.timerstart
      ∧ 0 ≤ (triplePressReset s).triple_counter
      ∧ (triplePressReset s).triple_counter ≤ s.triple_counter + 1 := by
  have hc : toInt8 (s.triple_counter + 1) = s.triple_counter + 1 := by
    unfold toInt8; omega
  rw [triplePressReset_eq, hc]
  split_ifs with h1 h2
  · omega
  · exact ⟨rfl, by show 0 ≤ s.triple_counter + 1; omega, le_refl _⟩
  · exact ⟨rfl, le_refl _, by show (0 : Int) ≤ s.triple_counter + 1; omega⟩

/-! ## Runs of fast transitions -/

theorem run_cons (s : State) (e : Ev) (es : List Ev) : run s (e :: es) = run (step s e) es := rfl

theorem run_nil (s : State) : run s [] = s := rfl

theorem triplePressReset_triple_counter (s : State) :
    (triplePressReset s).triple_counter =
      if fastCond s.t0 s.t1 then
        if toInt8 (s.triple_counter + 1) ≥ 5 then 0 else toInt8 (s.triple_counter + 1)
      else 0 := by
  rw [triplePressReset_eq]; split_ifs <;> rfl

/-- The counter after a delivered packet does not depend on the hold check. -/
theorem step_counter_eq (s : State) (e : Ev) :
    (step s e).triple_counter =
      if fastCond (stamp s.t0 s.t1 e.f e.arrival).1 (stamp s.t0 s.t1 e.f e.arrival).2 then
        if toInt8 (s.triple_counter + 1) ≥ 5 then 0 else toInt8 (s.triple_counter + 1)
      else 0 := by
  rw [step_triple_counter, deliver_fst, refresh_triple_counter,
    triplePressReset_triple_counter]
  simp only [fiveSecondsPressed_t0, fiveSecondsPressed_t1, fiveSecondsPressed_triple_counter,
    latched_t0, latched_t1, latched_triple_counter, stamp]
  by_cases hf : e.f = 1 <;> simp [hf]

theorem stamp_fst (t0 t1 : Nat) (f : Int) (T : Nat) :
    (stamp t0 t1 f T).1 = if f = 1 then millis T else t0 := by
  unfold stamp; split_ifs <;> rfl

theorem stamp_snd (t0 t1 : Nat) (f : Int) (T : Nat) :
    (stamp t0 t1 f T).2 = if f = 1 then t1 else millis T := by
  unfold stamp; split_ifs <;> rfl

/-- One fast transition whose hold check stays quiet: the counter stays within
`0..4`, a disarmed timer with value 0 stays so, and either the timer is
disarmed with value 0 afterwards or the counter went up by one. -/
theorem step_fast (s : State) (e : Ev) (h0 : 0 ≤ s.triple_counter)
    (h4 : s.triple_counter ≤ 4)
    (hfast : fastCond (stamp s.t0 s.t1 e.f e.arrival).1 (stamp s.t0 s.t1 e.f e.arrival).2 = true)
    (hq : e.f ≠ 0 ∨ sub32 (millis e.tick.hold) s.t0 ≤ 5000) (hf : e.f = 1 ∨ e.f = 0) :
    (0 ≤ (step s e).triple_counter ∧ (step s e).triple_counter ≤ 4)
      ∧ (s.timerstart = false ∧ s.timediff = 0 →
          (step s e).timerstart = false ∧ (step s e).timediff = 0)
      ∧ (((step s e).timerstart = false ∧ (step s e).timediff = 0)
          ∨ (step s e).triple_counter = s.triple_counter + 1) := by
  have hq' : (latched s e.f e.arrival).state ≠ 0
      ∨ sub32 (millis e.tick.hold) (latched s e.f e.arrival).t0 ≤ 5000 := by
    rcases hf with hf | hf
    · left; simp [hf]
    · right
      rcases hq with hq | hq
      · exact absurd hf hq
      · simpa [hf] using hq
  have hd : (deliver s e).1
      = refresh (triplePressReset (latched s e.f e.arrival)) e.tick.disp := by
    rw [deliver_fst, hold_quiet _ _ hq']
  have hfast' : fastCond (latched s e.f e.arrival).t0 (latched s e.f e.arrival).t1 = true := by
    rw [latched_t0, latched_t1, ← stamp_fst s.t0 s.t1, ← stamp_snd s.t0 s.t1]; exact hfast
  have hc : toInt8 (s.triple_counter + 1) = s.triple_counter + 1 := by
    unfold toInt8; omega
  have ht : triplePressReset (latched s e.f e.arrival) =
      if s.triple_counter + 1 ≥ 5 then
        { latched s e.f e.arrival with timediff := 0, triple_counter := 0, timerstart := false }
      else { latched s e.f e.arrival with triple_counter := s.triple_counter + 1 } := by
    rw [triplePressReset_eq, hfast', if_pos rfl, latched_triple_counter, hc]
  by_cases h5 : s.triple_counter + 1 ≥ 5
  · rw [if_pos h5] at ht
    have hts : (deliver s e).1.timerstart = false := by rw [hd, refresh_timerstart, ht]
    have htd : (deliver s e).1.timediff = 0 := by
      rw [hd, refresh_timediff, ht]; rfl
    have hdis : (step s e).timerstart = false ∧ (step s e).timediff = 0 :=
      ⟨by rw [step_timerstart, hts], by rw [step_timediff _ _ hts, htd]⟩
    have hct : (step s e).triple_counter = 0 := by
      rw [step_triple_counter, hd, refresh_triple_counter, ht]
    exact ⟨by rw [hct]; omega, fun _ => hdis, Or.inl hdis⟩
  · rw [if_neg h5] at ht
    have hts : (deliver s e).1.timerstart = s.timerstart := by
      rw [hd, refresh_timerstart, ht]; simp
    have hct : (step s e).triple_counter = s.triple_counter + 1 := by
      rw [step_triple_counter, hd, refresh_triple_counter, ht]
    refine ⟨by rw [hct]; omega, fun hdis => ?_, Or.inr hct⟩
    have hts' : (deliver s e).1.timerstart = false := by rw [hts, hdis.1]
    refine ⟨by rw [step_timerstart, hts'], ?_⟩
    rw [step_timediff _ _ hts', hd, refresh_timediff, ht]
    simp [hdis.1, hdis.2]

/-- After `n` transitions of a fast run the timer is disarmed with value 0, or
the counter has gone up by `n`; since the counter stays within `0..4`, five fast
transitions always disarm the timer. -/
theorem run_fast (es : List Ev) : ∀ (s : State) (n : Int),
    0 ≤ s.triple_counter → s.triple_counter ≤ 4 →
    ((s.timerstart = false ∧ s.timediff = 0) ∨ n ≤ s.triple_counter) →
    fastRun s.t0 s.t1 es = true →
    (0 ≤ (run s es).triple_counter ∧ (run s es).triple_counter ≤ 4)
      ∧ (((run s es).timerstart = false ∧ (run s es).timediff = 0)
          ∨ n + es.length ≤ (run s es).triple_counter) := by
  induction es with
  | nil =>
    intro s n h0 h4 hinv _
    rw [run_nil]
    exact ⟨⟨h0, h4⟩, by simpa using hinv⟩
  | cons e es ih =>
    intro s n h0 h4 hinv hrun
    simp only [fastRun, Bool.and_eq_true, Bool.or_eq_true, decide_eq_true_eq] at hrun
    obtain ⟨⟨⟨hf, hfast⟩, hq⟩, hrest⟩ := hrun
    have hq' : e.f ≠ 0 ∨ sub32 (millis e.tick.hold) s.t0 ≤ 5000 := by
      rcases hq with hq | hq
      · left; rw [hq]; decide
      · right; exact hq
    obtain ⟨⟨a0, a4⟩, akeep, astep⟩ := step_fast s e h0 h4 hfast hq' hf
    have hrest' : fastRun (step s e).t0 (step s e).t1 es = true := by
      rw [step_t0, step_t1, ← stamp_fst s.t0 s.t1, ← stamp_snd s.t0 s.t1]; exact hrest
    have hinv' : ((step s e).timerstart = false ∧ (step s e).timediff = 0)
        ∨ n + 1 ≤ (step s e).triple_counter := by
      rcases hinv with hdis | hn
      · exact Or.inl (akeep hdis)
      · rcases astep with hdis | hc
        · exact Or.inl hdis
        · right; rw [hc]; omega
    obtain ⟨b, c⟩ := ih (step s e) (n + 1) a0 a4 hinv' hrest'
    rw [run_cons]
    refine ⟨b, ?_⟩
    rcases c with c | c
    · exact Or.inl c
    · right; rw [List.length_cons]; push_cast; omega

/-- The counter stays within `0..4` under any delivered packet. -/
theorem step_counter_range (s : State) (e : Ev) (h0 : 0 ≤ s.triple_counter)
    (h4 : s.triple_counter ≤ 4) :
    0 ≤ (step s e).triple_counter ∧ (step s e).triple_counter ≤ 4 := by
  have hc : toInt8 (s.triple_counter + 1) = s.triple_counter + 1 := by
    unfold toInt8; omega
  rw [step_counter_eq, hc]
  split_ifs <;> omega

/-! ## Counting transitions -/

theorem step_counter_slow (s : State) (e : Ev)
    (h : fastCond (stamp s.t0 s.t1 e.f e.arrival).1 (stamp s.t0 s.t1 e.f e.arrival).2 = false) :
    (step s e).triple_counter = 0 := by
  rw [step_counter_eq, h]; rfl

theorem step_counter_fast (s : State) (e : Ev)
    (h : fastCond (stamp s.t0 s.t1 e.f e.arrival).1 (stamp s.t0 s.t1 e.f e.arrival).2 = true)
    (h0 : 0 ≤ s.triple_counter) (h3 : s.triple_counter ≤ 3) :
    (step s e).triple_counter = s.triple_counter + 1 := by
  have hc : toInt8 (s.triple_counter + 1) = s.triple_counter + 1 := by
    unfold toInt8; omega
  rw [step_counter_eq, h, if_pos rfl, hc, if_neg (by omega)]

/-- The fifth fast transition in a row: the pass that processes it disarms the
timer, zeroes its value and the counter, and shows the sentinel. -/
theorem deliver_fifth (s : State) (e : Ev)
    (h : fastCond (stamp s.t0 s.t1 e.f e.arrival).1 (stamp s.t0 s.t1 e.f e.arrival).2 = true)
    (hc : s.triple_counter = 4) :
    (deliver s e).1.timerstart = false ∧ (deliver s e).1.timediff = 0
      ∧ (deliver s e).1.triple_counter = 0 ∧ (deliver s e).2.shown = 0
      ∧ (deliver s e).2.frame = Display.displayError := by
  have hfast : fastCond (fiveSecondsPressed (latched s e.f e.arrival) e.tick.hold).t0
      (fiveSecondsPressed (latched s e.f e.arrival) e.tick.hold).t1 = true := by
    rw [fiveSecondsPressed_t0, fiveSecondsPressed_t1, latched_t0, latched_t1,
      ← stamp_fst s.t0 s.t1, ← stamp_snd s.t0 s.t1]
    exact h
  have ht : triplePressReset (fiveSecondsPressed (latched s e.f e.arrival) e.tick.hold) =
      { fiveSecondsPressed (latched s e.f e.arrival) e.tick.hold with
        timediff := 0, triple_counter := 0, timerstart := false } := by
    rw [triplePressReset_eq, hfast, if_pos rfl, fiveSecondsPressed_triple_counter,
      latched_triple_counter, hc, if_pos (by decide)]
  have hts : (deliver s e).1.timerstart = false := by
    rw [deliver_fst, refresh_timerstart, ht]
  have htd : (deliver s e).1.timediff = 0 := by
    rw [deliver_fst, refresh_timediff, ht]; rfl
  have hct : (deliver s e).1.triple_counter = 0 := by
    rw [deliver_fst, refresh_triple_counter, ht]
  have hout : (deliver s e).2.shown = toInt32 (deliver s e).1.timediff
      ∧ (deliver s e).2.frame = showDisplay (toInt32 (deliver s e).1.timediff) := by
    unfold deliver; exact ⟨loop_shown _ _ _, loop_frame _ _ _⟩
  refine ⟨hts, htd, hct, ?_, ?_⟩
  · rw [hout.1, htd]; rfl
  · rw [hout.2, htd]; rfl

/-! ## The display encoder without its intermediate bindings -/

/-- The frame `showDisplay` builds, slot by slot. -/
theorem showDisplay_eq (time : Int) :
    showDisplay time =
      if time = 0 then Display.displayError
      else if toInt32 (Int.tdiv time 1000) < 600 then
        Display.display
          [toInt8 (Int.tdiv (Int.tmod time 1000) 100), toInt8 10,
            toInt8 (Int.tmod (toInt32 (Int.tdiv time 1000)) 10),
            toInt8 (Int.tdiv (Int.tmod (toInt32 (Int.tdiv time 1000)) 60) 10), toInt8 10,
            toInt8 (Int.tmod (Int.tdiv (toInt32 (Int.tdiv time 1000)) 60) 10)]
          [toInt8 POINT_OFF, toInt8 POINT_OFF, toInt8 POINT_OFF, toInt8 POINT_OFF,
            toInt8 POINT_OFF, toInt8 POINT_OFF]
      else
        Display.display
          [toInt8 (Int.tdiv (Int.tmod time 1000) 100),
            toInt8 (Int.tmod (toInt32 (Int.tdiv time 1000)) 10),
            toInt8 (Int.tdiv (Int.tmod (toInt32 (Int.tdiv time 1000)) 60) 10),
            toInt8 (Int.tmod (Int.tdiv (toInt32 (Int.tdiv time 1000)) 60) 10),
            toInt8 (Int.tdiv (toInt32 (Int.tdiv time 1000)) 600),
            toInt8 (Int.tdiv (toInt32 (Int.tdiv time 1000)) 3600)]
          [0, toInt8 (if toInt32 (Int.tdiv time 1000) ≥ 1 then POINT_ON else POINT_OFF),
            0, toInt8 (if toInt32 (Int.tdiv time 1000) ≥ 60 then POINT_ON else POINT_OFF),
            0, toInt8 (if toInt32 (Int.tdiv time 1000) ≥ 3600 then POINT_ON else POINT_OFF)] := by
  unfold showDisplay
  rfl

/-- The frame for a positive `int32_t` time, with the conversions that do
nothing removed: only slots 4 and 5 of the full layout can exceed `int8_t`. -/
theorem showDisplay_pos (time : Int) (h0 : 0 < time) (h31 : time < 2147483648) :
    showDisplay time =
      if time / 1000 < 600 then
        Display.display
          [time % 1000 / 100, 10, time / 1000 % 10, time / 1000 % 60 / 10, 10,
            time / 1000 / 60]
          [POINT_OFF, POINT_OFF, POINT_OFF, POINT_OFF, POINT_OFF, POINT_OFF]
      else
        Display.display
          [time % 1000 / 100, time / 1000 % 10, time / 1000 % 60 / 10, time / 1000 / 60 % 10,
            toInt8 (time / 1000 / 600), toInt8 (time / 1000 / 3600)]
          [POINT_OFF, POINT_ON, POINT_OFF, POINT_ON, POINT_OFF,
            if time / 1000 ≥ 3600 then POINT_ON else POINT_OFF] := by
  have hsec : toInt32 (Int.tdiv time 1000) = time / 1000 := by
    rw [Int.tdiv_eq_ediv (by omega) (by decide)]; unfold toInt32; omega
  have e0 : toInt8 (Int.tdiv (Int.tmod time 1000) 100) = time % 1000 / 100 := by
    rw [Int.tmod_eq_emod (by omega) (by decide), Int.tdiv_eq_ediv (by omega) (by decide)]
    unfold toInt8; omega
  have e1 : toInt8 (Int.tmod (time / 1000) 10) = time / 1000 % 10 := by
    rw [Int.tmod_eq_emod (by omega) (by decide)]; unfold toInt8; omega
  have e2 : toInt8 (Int.tdiv (Int.tmod (time / 1000) 60) 10) = time / 1000 % 60 / 10 := by
    rw [Int.tmod_eq_emod (by omega) (by decide), Int.tdiv_eq_ediv (by omega) (by decide)]
    unfold toInt8; omega
  have e3 : toInt8 (Int.tmod (Int.tdiv (time / 1000) 60) 10) = time / 1000 / 60 % 10 := by
    rw [Int.tdiv_eq_ediv (by omega) (by decide), Int.tmod_eq_emod (by omega) (by decide)]
    unfold toInt8; omega
  have e4 : Int.tdiv (time / 1000) 600 = time / 1000 / 600 :=
    Int.tdiv_eq_ediv (by omega) (by decide)
  have e5 : Int.tdiv (time / 1000) 3600 = time / 1000 / 3600 :=
    Int.tdiv_eq_ediv (by omega) (by decide)
  have eb : toInt8 10 = 10 := by decide
  have eoff : toInt8 POINT_OFF = POINT_OFF := by decide
  have eon : toInt8 POINT_ON = POINT_ON := by decide
  have ezero : (0 : Int) = POINT_OFF := rfl
  rw [showDisplay_eq, if_neg (by omega), hsec, e0, e1, e2, e3, e4, e5, eb, eoff]
  by_cases hlt : time / 1000 < 600
  · rw [if_pos hlt, if_pos hlt]
    have e6 : time / 1000 / 60 % 10 = time / 1000 / 60 := by omega
    rw [e6]
  · rw [if_neg hlt, if_neg hlt, if_pos (by omega), if_pos (by omega), eon]
    by_cases h36 : time / 1000 ≥ 3600
    · rw [if_pos h36, eon]; rfl
    · rw [if_neg h36, eoff]; rfl

/-- Below one hour the frame reads back to the elapsed seconds. -/
theorem decodeFrame_below_one_hour (elapsedMs : Int) (h0 : 0 < elapsedMs)
    (h : elapsedMs < 3600000) :
    decodeFrame elapsedMs (showDisplay elapsedMs) = some (elapsedMs / 1000) := by
  rw [showDisplay_pos elapsedMs h0 (by omega)]
  by_cases hlt : elapsedMs / 1000 < 600
  · rw [if_pos hlt]
    simp only [decodeFrame, if_pos hlt, decodeShort, List.getD_cons_succ, List.getD_cons_zero]
    congr 1; omega
  · rw [if_neg hlt]
    have e4 : toInt8 (elapsedMs / 1000 / 600) = elapsedMs / 1000 / 600 := by
      unfold toInt8; omega
    have e5 : toInt8 (elapsedMs / 1000 / 3600) = 0 := by
      unfold toInt8; omega
    simp only [decodeFrame, if_neg hlt, decodeFull, List.getD_cons_succ, List.getD_cons_zero,
      e4, e5]
    congr 1; omega

/-- Below one hundred minutes every slot of the frame holds a digit `0..9`, or
`BLANK` in slots 1 and 4 of the short layout. -/
theorem digits_below_hundred_minutes (elapsedMs : Int) (h0 : 0 < elapsedMs)
    (h : elapsedMs < 6000000) :
    ∃ d p, showDisplay elapsedMs = Display.display d p
      ∧ ∀ i, i < 6 → (0 ≤ d.getD i 0 ∧ d.getD i 0 ≤ 9)
          ∨ (d.getD i 0 = BLANK ∧ elapsedMs / 1000 < 600 ∧ (i = 1 ∨ i = 4)) := by
  rw [showDisplay_pos elapsedMs h0 (by omega)]
  by_cases hlt : elapsedMs / 1000 < 600
  · rw [if_pos hlt]
    refine ⟨_, _, rfl, fun i hi => ?_⟩
    interval_cases i <;>
      simp only [List.getD_cons_succ, List.getD_cons_zero, BLANK] <;>
      first | omega | simp [hlt]
  · rw [if_neg hlt]
    have e4 : toInt8 (elapsedMs / 1000 / 600) = elapsedMs / 1000 / 600 := by
      unfold toInt8; omega
    have e5 : toInt8 (elapsedMs / 1000 / 3600) = elapsedMs / 1000 / 3600 := by
      unfold toInt8; omega
    refine ⟨_, _, rfl, fun i hi => ?_⟩
    rw [e4, e5]
    interval_cases i <;>
      simp only [List.getD_cons_succ, List.getD_cons_zero, BLANK] <;> omega

/-! ## Invariants of the reachable states -/

theorem exec_nil (s : State) : exec s [] = s := rfl

theorem exec_cons (s : State) (a : Action) (l : List Action) :
    exec s (a :: l) = exec (act s a) l := rfl

theorem exec_append (l₁ l₂ : List Action) (s : State) :
    exec s (l₁ ++ l₂) = exec (exec s l₁) l₂ := by
  unfold exec; rw [List.foldl_append]

theorem OnDataRecv_triple_counter (s : State) (f : Int) (T : Nat) :
    (OnDataRecv s f T).triple_counter = s.triple_counter := by
  rw [OnDataRecv_eq]; split_ifs <;> rfl

theorem OnDataRecv_timerstart (s : State) (f : Int) (T : Nat) :
    (OnDataRecv s f T).timerstart = s.timerstart := by
  rw [OnDataRecv_eq]; split_ifs <;> rfl

theorem OnDataRecv_timediff (s : State) (f : Int) (T : Nat) :
    (OnDataRecv s f T).timediff = s.timediff := by
  rw [OnDataRecv_eq]; split_ifs <;> rfl

/-- The detector leaves a counter within `0..4` within `0..4`. -/
theorem triplePressReset_range (s : State) (h0 : 0 ≤ s.triple_counter)
    (h4 : s.triple_counter ≤ 4) :
    0 ≤ (triplePressReset s).triple_counter ∧ (triplePressReset s).triple_counter ≤ 4 := by
  have hc : toInt8 (s.triple_counter + 1) = s.triple_counter + 1 := by
    unfold toInt8; omega
  rw [triplePressReset_triple_counter, hc]
  split_ifs <;> omega

theorem processPacket_range (s : State) (Th : Nat) (h0 : 0 ≤ s.triple_counter)
    (h4 : s.triple_counter ≤ 4) :
    0 ≤ (processPacket s Th).1.triple_counter ∧ (processPacket s Th).1.triple_counter ≤ 4 := by
  rw [processPacket_fst]
  exact triplePressReset_range _ (by simpa using h0) (by simpa using h4)

theorem loop_triple_counter (s : State) (Th Td : Nat) :
    (loop s Th Td).1.triple_counter
      = if s.received then (processPacket s Th).1.triple_counter else s.triple_counter := by
  rw [loop_fst_eq, refresh_triple_counter]; split_ifs <;> rfl

theorem act_range (s : State) (a : Action) (h0 : 0 ≤ s.triple_counter)
    (h4 : s.triple_counter ≤ 4) :
    0 ≤ (act s a).triple_counter ∧ (act s a).triple_counter ≤ 4 := by
  cases a with
  | recv f T =>
    show 0 ≤ (OnDataRecv s f T).triple_counter ∧ (OnDataRecv s f T).triple_counter ≤ 4
    rw [OnDataRecv_triple_counter]; exact ⟨h0, h4⟩
  | tick Th Td =>
    show 0 ≤ (loop s Th Td).1.triple_counter ∧ (loop s Th Td).1.triple_counter ≤ 4
    rw [loop_triple_counter]
    split_ifs
    · exact processPacket_range s Th h0 h4
    · exact ⟨h0, h4⟩

theorem exec_range (l : List Action) (s : State) (h0 : 0 ≤ s.triple_counter)
    (h4 : s.triple_counter ≤ 4) :
    0 ≤ (exec s l).triple_counter ∧ (exec s l).triple_counter ≤ 4 := by
  induction l generalizing s with
  | nil => exact ⟨h0, h4⟩
  | cons a l ih =>
    rw [exec_cons]
    exact ih (act s a) (act_range s a h0 h4).1 (act_range s a h0 h4).2

/-- The detector keeps "a disarmed timer shows 0". -/
theorem triplePressReset_zero (s : State) (h : s.timerstart = false → s.timediff = 0) :
    (triplePressReset s).timerstart = false → (triplePressReset s).timediff = 0 := by
  rw [triplePressReset_eq]
  split_ifs
  · intro _; rfl
  · exact h
  · exact h

theorem fiveSecondsPressed_zero (s : State) (T : Nat)
    (h : s.timerstart = false → s.timediff = 0) :
    (fiveSecondsPressed s T).timerstart = false → (fiveSecondsPressed s T).timediff = 0 := by
  rw [fiveSecondsPressed_eq]
  split_ifs
  · exact h
  · intro hc; exact absurd hc (by simp)
  · exact h

theorem refresh_zero (s : State) (Td : Nat) (h : s.timerstart = false → s.timediff = 0) :
    (refresh s Td).timerstart = false → (refresh s Td).timediff = 0 := by
  intro hf
  rw [refresh_timerstart] at hf
  rw [refresh_timediff, hf]
  exact h hf

theorem loop_zero (s : State) (Th Td : Nat) (h : s.timerstart = false → s.timediff = 0) :
    (loop s Th Td).1.timerstart = false → (loop s Th Td).1.timediff = 0 := by
  rw [loop_fst_eq]
  apply refresh_zero
  split_ifs
  · rw [processPacket_fst]
    exact triplePressReset_zero _ (fiveSecondsPressed_zero _ _ h)
  · exact h

theorem act_zero (s : State) (a : Action) (h : s.timerstart = false → s.timediff = 0) :
    (act s a).timerstart = false → (act s a).timediff = 0 := by
  cases a with
  | recv f T =>
    show (OnDataRecv s f T).timerstart = false → (OnDataRecv s f T).timediff = 0
    rw [OnDataRecv_timerstart, OnDataRecv_timediff]; exact h
  | tick Th Td => exact loop_zero s Th Td h

theorem exec_zero (l : List Action) (s : State) (h : s.timerstart = false → s.timediff = 0) :
    (exec s l).timerstart = false → (exec s l).timediff = 0 := by
  induction l generalizing s with
  | nil => exact h
  | cons a l ih => rw [exec_cons]; exact ih (act s a) (act_zero s a h)

/-- When the timer is armed at the end of a pass, the pass has set `timediff`
to the clock reading minus the baseline. -/
theorem loop_armed_timediff (s : State) (Th Td : Nat)
    (h : (loop s Th Td).1.timerstart = true) :
    (loop s Th Td).1.timediff = sub32 (millis Td) (loop s Th Td).1.t2 := by
  rw [loop_fst_eq] at h ⊢
  rw [refresh_timerstart] at h
  rw [refresh_timediff, h, refresh_t2]; rfl

/-! ## The call of the detector in a pass -/

/-- The body of `if (received)` returns what `triplePressReset` makes of the
state `atDetectorCall`. -/
theorem processPacket_at_call (s : State) (Th : Nat) :
    (processPacket s Th).1 = triplePressReset (atDetectorCall s Th) := rfl

/-! ## The pins of a delivered packet -/

theorem deliver_pins (s : State) (e : Ev) :
    (deliver s e).2.pins = [(PS4_Button, toUInt8 e.f), (Status_LED, toUInt8 e.f)] := by
  have hr : (OnDataRecv s e.f e.arrival).received = true := by
    rw [OnDataRecv_eq]; split_ifs <;> rfl
  have hm : (OnDataRecv s e.f e.arrival).myData_f = e.f := by
    rw [OnDataRecv_eq]; split_ifs <;> rfl
  unfold deliver
  rw [loop_pins, hr, if_pos rfl, processPacket_snd, hm]

/-! ## Passes with nothing pending -/

/-- Passes of `loop` with nothing pending are the timer refresh alone. -/
theorem ticks_refresh (l : List Tick) (s : State) (h : s.received = false) :
    ticks s l = l.foldl (fun x k => refresh x k.disp) s := by
  induction l generalizing s with
  | nil => rfl
  | cons k l ih =>
    rw [ticks_cons, loop_idle s _ _ h, List.foldl_cons]
    exact ih (refresh s k.disp) (by simpa using h)

/-! ## C1: a hold of more than five seconds arms the timer -/

/-- C1: for every prior state, if a press is received at `T0` and the next
packet is a release received at `T1` with `T1 - T0 > 5000`, the release being
processed by a pass of `loop` that reads the clock at `Th ≥ T1` (the time since
the press staying below `2^31` ms), then right after that pass `timerstart` is
true and the baseline `t2` is the clock reading of the release, so that the
elapsed value taken at the release, `t1 - t2`, is 0.  Any passes of `loop` may
lie between the press and the release. -/
theorem C1_long_hold_arms (s : State) (T0 T1 Th Td : Nat) (between : List Tick)
    (h01 : T0 ≤ T1) (hlong : T1 - T0 > 5000) (hnow : T1 ≤ Th)
    (hdur : Th - T0 < 2147483648) :
    (pressRelease s T0 between T1 Th Td).timerstart = true
      ∧ (pressRelease s T0 between T1 Th Td).t2 = millis T1
      ∧ sub32 (millis T1) (pressRelease s T0 between T1 Th Td).t2 = 0 := by
  have hh : sub32 (millis Th) (millis T0) > 5000 := by
    rw [sub32_millis T0 Th (by omega) (by omega)]; omega
  have hs : fastCond (millis T0) (millis T1) = false := by
    rw [Bool.eq_false_iff, Ne, fastCond_iff, sub32_millis T0 T1 h01 (by omega)]
    omega
  have key : (pressRelease s T0 between T1 Th Td).timerstart = true
      ∧ (pressRelease s T0 between T1 Th Td).t2 = millis T1 := by
    unfold pressRelease
    rw [loop_fst_eq]
    simp only [OnDataRecv_eq, if_true, if_false, zero_ne_one, processPacket_fst,
      refresh_timerstart, refresh_t2, triplePressReset_t2]
    rw [hold_fires _ _ rfl (by simpa using hh), slow_resets_counter _ (by simpa using hs)]
    simp
  refine ⟨key.1, key.2, ?_⟩
  rw [key.2]; unfold sub32 millis; omega

/-- C1 at a concrete run: press at 1000 ms, release at 7000 ms, processed at 7003 ms. -/
theorem C1_long_hold_arms_witness :
    (pressRelease init 1000 [⟨1003, 1004⟩, ⟨1013, 1014⟩] 7000 7003 7004).timerstart = true
      ∧ (pressRelease init 1000 [⟨1003, 1004⟩, ⟨1013, 1014⟩] 7000 7003 7004).t2 = millis 7000
      ∧ sub32 (millis 7000)
          (pressRelease init 1000 [⟨1003, 1004⟩, ⟨1013, 1014⟩] 7000 7003 7004).t2 = 0 :=
  C1_long_hold_arms init 1000 7000 7003 7004 [⟨1003, 1004⟩, ⟨1013, 1014⟩]
    (by decide) (by decide) (by decide) (by decide)

/-! ## C2: a hold of at most five seconds -/

/-- C2, as stated, fails: from the reachable state `armedFour` (timer armed,
four fast transitions counted) a press at 7500 ms and a release at 7600 ms, a
pair of duration 100 ms ≤ 5000 ms, leave `timerstart` false although it was
true before the press: the press is the fifth fast transition. -/
theorem C2_counterexample :
    7600 - 7500 ≤ 5000 ∧ armedFour.timerstart = true
      ∧ (pressPair armedFour 7500 ⟨7503, 7504⟩ [] 7600 7603 7604).timerstart = false := by
  decide

/-- C2, amended: for every prior state, if a press is received at `T0` and
processed by a pass of `loop`, and the next packet is a release received at
`T1` and processed by a pass that reads the clock at `Th` with
`T1 ≤ Th` and `Th - T0 ≤ 5000` (so `T1 - T0 ≤ 5000`), then the pair does not arm
the timer: `timerstart` is true afterwards only if it was true before; and when
`triple_counter` was between 0 and 2 before the press, `timerstart` is exactly
what it was before the press. -/
theorem C2_short_hold (s : State) (T0 T1 Th Td : Nat) (k : Tick) (idle : List Tick)
    (h01 : T0 ≤ T1) (hnow : T1 ≤ Th) (hshort : Th - T0 ≤ 5000) :
    ((pressPair s T0 k idle T1 Th Td).timerstart = true → s.timerstart = true)
      ∧ (0 ≤ s.triple_counter → s.triple_counter ≤ 2 →
          (pressPair s T0 k idle T1 Th Td).timerstart = s.timerstart) := by
  have hh : sub32 (millis Th) (millis T0) ≤ 5000 := by
    rw [sub32_millis T0 Th (by omega) (by omega)]; omega
  -- the pass that processes the press
  have hp : (deliver s ⟨1, T0, k, idle⟩).1
      = refresh (triplePressReset (latched s 1 T0)) k.disp := by
    rw [deliver_fst, hold_quiet _ _ (Or.inl (by simp))]
  -- the pass that processes the release
  have hr : pressPair s T0 k idle T1 Th Td
      = refresh (triplePressReset (latched (step s ⟨1, T0, k, idle⟩) 0 T1)) Td := by
    unfold pressPair
    rw [deliver_fst, hold_quiet _ _ (Or.inr (by simpa using hh))]
  have hts : (step s ⟨1, T0, k, idle⟩).timerstart
      = (triplePressReset (latched s 1 T0)).timerstart := by
    rw [step_timerstart, hp, refresh_timerstart]
  have hct : (step s ⟨1, T0, k, idle⟩).triple_counter
      = (triplePressReset (latched s 1 T0)).triple_counter := by
    rw [step_triple_counter, hp, refresh_triple_counter]
  refine ⟨fun h => ?_, fun h0 h2 => ?_⟩
  · rw [hr, refresh_timerstart] at h
    have h1 := triplePressReset_timerstart_le _ h
    rw [latched_timerstart, hts] at h1
    simpa using triplePressReset_timerstart_le _ h1
  · obtain ⟨a1, a2, a3⟩ := triplePressReset_below (latched s 1 T0)
      (by simpa using h0) (by simp; omega)
    obtain ⟨b1, -, -⟩ := triplePressReset_below (latched (step s ⟨1, T0, k, idle⟩) 0 T1)
      (by rw [latched_triple_counter, hct]; exact a2)
      (by rw [latched_triple_counter, hct]; simp at a3; omega)
    rw [hr, refresh_timerstart, b1, latched_timerstart, hts, a1, latched_timerstart]

/-- C2 amended at a concrete run: from the initial state, press at 1000 ms,
release at 3000 ms processed at 3003 ms. -/
theorem C2_short_hold_witness :
    ((pressPair init 1000 ⟨1003, 1004⟩ [] 3000 3003 3004).timerstart = true
        → init.timerstart = true)
      ∧ (0 ≤ init.triple_counter → init.triple_counter ≤ 2 →
          (pressPair init 1000 ⟨1003, 1004⟩ [] 3000 3003 3004).timerstart
            = init.timerstart) :=
  C2_short_hold init 1000 3000 3003 3004 ⟨1003, 1004⟩ [] (by decide) (by decide) (by decide)

/-! ## C3: five fast press→release pairs -/

set_option maxRecDepth 100000 in
/-- C3, as stated, fails: from the reachable armed state `armedZero`, five
press→release pairs of 100 ms each, one second apart and each packet processed
3 ms after it arrives, leave the timer armed and its value nonzero after the
fifth release: every press comes 900 ms after the previous release, is
classified slow and puts the counter back to 0. -/
theorem C3_counterexample :
    armedZero.timerstart = true
      ∧ (∀ i, i < 5 → (8000 + 1000 * i + 100) - (8000 + 1000 * i) < 333)
      ∧ (run armedZero (fivePairs (fun i => 8000 + 1000 * i) (fun i => 8000 + 1000 * i + 100)
            (fun j => soonAfter (8000 + 1000 * (j / 2) + 100 * (j % 2)))
            (fun _ => []))).timerstart = true
      ∧ (run armedZero (fivePairs (fun i => 8000 + 1000 * i) (fun i => 8000 + 1000 * i + 100)
            (fun j => soonAfter (8000 + 1000 * (j / 2) + 100 * (j % 2)))
            (fun _ => []))).timediff = 5104 := by
  refine ⟨by decide, fun i _ => by omega, by decide, by decide⟩

/-- C3, amended: for every prior state whose `triple_counter` is between 0 and 4
(as in every reachable state), and every sequence of five consecutive
press→release pairs in which each release comes less than 333 ms after its
press and each press after the first comes less than 333 ms after the previous
release, each packet processed by its own pass of `loop` and each release
processed by a pass that reads the clock at most 5000 ms after the press,
`timerstart` is false and `timediff` is 0 after the fifth release has been
processed.  Passes of `loop` with nothing pending may follow every packet. -/
theorem C3_five_fast_pairs (s : State) (P R : Nat → Nat) (k : Nat → Tick)
    (idle : Nat → List Tick)
    (h0 : 0 ≤ s.triple_counter) (h4 : s.triple_counter ≤ 4)
    (hpair : ∀ i, i < 5 → P i ≤ R i ∧ R i - P i < 333)
    (hgap : ∀ i, i < 4 → R i ≤ P (i + 1) ∧ P (i + 1) - R i < 333)
    (htick : ∀ i, i < 5 → R i ≤ (k (2 * i + 1)).hold ∧ (k (2 * i + 1)).hold - P i ≤ 5000) :
    (run s (fivePairs P R k idle)).timerstart = false
      ∧ (run s (fivePairs P R k idle)).timediff = 0 := by
  have p0 := hpair 0 (by decide)
  have p1 := hpair 1 (by decide)
  have p2 := hpair 2 (by decide)
  have p3 := hpair 3 (by decide)
  have p4 := hpair 4 (by decide)
  have g0 := hgap 0 (by decide)
  have g1 := hgap 1 (by decide)
  have g2 := hgap 2 (by decide)
  have g3 := hgap 3 (by decide)
  have k0 := htick 0 (by decide)
  have k1 := htick 1 (by decide)
  have k2 := htick 2 (by decide)
  have k3 := htick 3 (by decide)
  have k4 := htick 4 (by decide)
  simp only [Nat.reduceMul, Nat.reduceAdd, zero_add] at g0 g1 g2 g3 k0 k1 k2 k3 k4
  unfold fivePairs
  rw [run_cons]
  obtain ⟨c0, c4⟩ := step_counter_range s ⟨1, P 0, k 0, idle 0⟩ h0 h4
  have hfr : fastRun (step s ⟨1, P 0, k 0, idle 0⟩).t0 (step s ⟨1, P 0, k 0, idle 0⟩).t1
      [⟨0, R 0, k 1, idle 1⟩, ⟨1, P 1, k 2, idle 2⟩, ⟨0, R 1, k 3, idle 3⟩,
       ⟨1, P 2, k 4, idle 4⟩, ⟨0, R 2, k 5, idle 5⟩, ⟨1, P 3, k 6, idle 6⟩,
       ⟨0, R 3, k 7, idle 7⟩, ⟨1, P 4, k 8, idle 8⟩, ⟨0, R 4, k 9, idle 9⟩] = true := by
    rw [step_t0, step_t1]
    simp only [fastRun, stamp, Bool.and_eq_true, Bool.or_eq_true, decide_eq_true_eq,
      fastCond_iff, if_true, if_false, zero_ne_one, one_ne_zero, false_or, or_true, true_or,
      true_and, and_true]
    unfold sub32 millis
    omega
  obtain ⟨⟨-, hle⟩, hfin⟩ := run_fast _ (step s ⟨1, P 0, k 0, idle 0⟩) 0 c0 c4 (Or.inr c0) hfr
  rcases hfin with hfin | hfin
  · exact hfin
  · simp only [List.length_cons, List.length_nil] at hfin
    norm_num at hfin
    omega

/-- C3 amended at a concrete run: from `armedZero`, five pairs of 100 ms each,
100 ms apart, each packet processed 3 ms after it arrives. -/
theorem C3_five_fast_pairs_witness :
    (run armedZero (fivePairs (fun i => 8000 + 200 * i) (fun i => 8100 + 200 * i)
        (fun j => soonAfter (8000 + 100 * j)) (fun _ => []))).timerstart = false
      ∧ (run armedZero (fivePairs (fun i => 8000 + 200 * i) (fun i => 8100 + 200 * i)
        (fun j => soonAfter (8000 + 100 * j)) (fun _ => []))).timediff = 0 :=
  C3_five_fast_pairs armedZero (fun i => 8000 + 200 * i) (fun i => 8100 + 200 * i)
    (fun j => soonAfter (8000 + 100 * j)) (fun _ => []) (by decide) (by decide)
    (fun i _ => ⟨by simp, by simp; omega⟩)
    (fun i _ => ⟨by simp; omega, by simp; omega⟩)
    (fun i _ => ⟨by simp [soonAfter]; omega, by simp [soonAfter]; omega⟩)

/-! ## C4: the stop gesture `10_10_10` -/

set_option maxRecDepth 100000 in
/-- C4, as stated, fails: from the reachable armed state `armedZero`, whose
previous release came at 7000 ms, let the first press of the gesture come
exactly `2^32` ms later (333 ms or more after the release) and the five other
packets 100 ms apart, each processed 3 ms after it arrives.  The 32-bit clock
shows the same reading at the press as at the release, the press is counted as
a fast transition, the fifth fast transition is the third press, and after the
third release `triple_counter` is 1, not 0. -/
theorem C4_counterexample :
    armedZero.timerstart = true ∧ armedZero.t1 = millis 7000
      ∧ 7000 + 333 ≤ 4294974296
      ∧ (stopGesture armedZero 4294974296 4294974396 4294974496 4294974596 4294974696
            4294974796 (fun j => soonAfter (4294974296 + 100 * j)) (fun _ => [])).1.triple_counter
          = 1 := by
  decide

/-- C4, amended: for every state (armed or not) whose previous release came at
`Tprev`, if the six packets press, release, press, release, press, release
arrive with the first press at least 333 ms and at most `2^32 - 333` ms after
the previous release and each of the five others less than 333 ms after the one
before it, each processed by its own pass of `loop` (whenever that pass reads
the clock), then after the pass that processes the third release `timerstart`
is false, `timediff` is 0 and `triple_counter` is 0, and that pass calls
`showDisplay` with 0, which shows the sentinel. -/
theorem C4_stop_gesture (s : State) (Tprev P1 R1 P2 R2 P3 R3 : Nat) (k : Nat → Tick)
    (idle : Nat → List Tick) (hprev : s.t1 = millis Tprev)
    (hfirst : Tprev + 333 ≤ P1) (hwrap : P1 - Tprev ≤ 4294967296 - 333)
    (h1 : P1 ≤ R1 ∧ R1 - P1 < 333) (h2 : R1 ≤ P2 ∧ P2 - R1 < 333)
    (h3 : P2 ≤ R2 ∧ R2 - P2 < 333) (h4 : R2 ≤ P3 ∧ P3 - R2 < 333)
    (h5 : P3 ≤ R3 ∧ R3 - P3 < 333) :
    (stopGesture s P1 R1 P2 R2 P3 R3 k idle).1.timerstart = false
      ∧ (stopGesture s P1 R1 P2 R2 P3 R3 k idle).1.timediff = 0
      ∧ (stopGesture s P1 R1 P2 R2 P3 R3 k idle).1.triple_counter = 0
      ∧ (stopGesture s P1 R1 P2 R2 P3 R3 k idle).2.shown = 0
      ∧ (stopGesture s P1 R1 P2 R2 P3 R3 k idle).2.frame = Display.displayError := by
  -- the classification of the six transitions
  have f1 : fastCond (millis P1) (millis Tprev) = false := by
    rw [Bool.eq_false_iff, Ne, fastCond_iff]; unfold sub32 millis; omega
  have f2 : fastCond (millis P1) (millis R1) = true := by
    rw [fastCond_iff]; unfold sub32 millis; omega
  have f3 : fastCond (millis P2) (millis R1) = true := by
    rw [fastCond_iff]; unfold sub32 millis; omega
  have f4 : fastCond (millis P2) (millis R2) = true := by
    rw [fastCond_iff]; unfold sub32 millis; omega
  have f5 : fastCond (millis P3) (millis R2) = true := by
    rw [fastCond_iff]; unfold sub32 millis; omega
  have f6 : fastCond (millis P3) (millis R3) = true := by
    rw [fastCond_iff]; unfold sub32 millis; omega
  unfold stopGesture tenTenTen
  simp only [run_cons, run_nil]
  -- the counter after each of the first five packets
  have c1 : (step s ⟨1, P1, k 0, idle 0⟩).triple_counter = 0 :=
    step_counter_slow _ _ (by simpa [stamp, hprev] using f1)
  have c2 : (step (step s ⟨1, P1, k 0, idle 0⟩) ⟨0, R1, k 1, idle 1⟩).triple_counter = 1 := by
    rw [step_counter_fast _ _ (by simpa [stamp] using f2) (by omega) (by omega), c1]; rfl
  have c3 : (step (step (step s ⟨1, P1, k 0, idle 0⟩) ⟨0, R1, k 1, idle 1⟩)
      ⟨1, P2, k 2, idle 2⟩).triple_counter = 2 := by
    rw [step_counter_fast _ _ (by simpa [stamp] using f3) (by omega) (by omega), c2]; rfl
  have c4 : (step (step (step (step s ⟨1, P1, k 0, idle 0⟩) ⟨0, R1, k 1, idle 1⟩)
      ⟨1, P2, k 2, idle 2⟩) ⟨0, R2, k 3, idle 3⟩).triple_counter = 3 := by
    rw [step_counter_fast _ _ (by simpa [stamp] using f4) (by omega) (by omega), c3]; rfl
  have c5 : (step (step (step (step (step s ⟨1, P1, k 0, idle 0⟩) ⟨0, R1, k 1, idle 1⟩)
      ⟨1, P2, k 2, idle 2⟩) ⟨0, R2, k 3, idle 3⟩) ⟨1, P3, k 4, idle 4⟩).triple_counter = 4 := by
    rw [step_counter_fast _ _ (by simpa [stamp] using f5) (by omega) (by omega), c4]; rfl
  exact deliver_fifth _ _ (by simpa [stamp] using f6) c5

/-- C4 amended at a concrete run: from `armedZero` (previous release at
7000 ms), the gesture starts at 8000 ms with its packets 100 ms apart. -/
theorem C4_stop_gesture_witness :
    (stopGesture armedZero 8000 8100 8200 8300 8400 8500
        (fun j => soonAfter (8000 + 100 * j)) (fun _ => [])).1.timerstart = false
      ∧ (stopGesture armedZero 8000 8100 8200 8300 8400 8500
        (fun j => soonAfter (8000 + 100 * j)) (fun _ => [])).1.timediff = 0
      ∧ (stopGesture armedZero 8000 8100 8200 8300 8400 8500
        (fun j => soonAfter (8000 + 100 * j)) (fun _ => [])).1.triple_counter = 0
      ∧ (stopGesture armedZero 8000 8100 8200 8300 8400 8500
        (fun j => soonAfter (8000 + 100 * j)) (fun _ => [])).2.shown = 0
      ∧ (stopGesture armedZero 8000 8100 8200 8300 8400 8500
        (fun j => soonAfter (8000 + 100 * j)) (fun _ => [])).2.frame = Display.displayError :=
  C4_stop_gesture armedZero 7000 8000 8100 8200 8300 8400 8500
    (fun j => soonAfter (8000 + 100 * j)) (fun _ => []) (by decide) (by decide) (by decide)
    (by decide) (by decide) (by decide) (by decide) (by decide)

/-! ## C5: `state` and the two pins mirror the payload -/

/-- C5: for every prior state and every sequence of press (payload 1) and
release (payload 0) packets, each processed by its own pass of `loop`, right
after the pass that processes packet `i` the variable `state` equals the
payload of packet `i`, and the `digitalWrite` calls of that pass are exactly
that value to `PS4_Button` and that value to `Status_LED`. -/
theorem C5_state_mirrors_payload (s : State) (es : List Ev)
    (hf : ∀ e ∈ es, e.f = 1 ∨ e.f = 0) :
    List.Forall₂
      (fun (e : Ev) (r : State × TickOut) =>
        r.1.state = e.f ∧ r.2.pins = [(PS4_Button, e.f), (Status_LED, e.f)])
      es (trace s es) := by
  induction es generalizing s with
  | nil => exact List.Forall₂.nil
  | cons e es ih =>
    have he : e.f = 1 ∨ e.f = 0 := hf e (List.mem_cons_self e es)
    have hst : (deliver s e).1.state = e.f := by
      rw [deliver_fst]; simp
    have hr : (OnDataRecv s e.f e.arrival).received = true := by
      rw [OnDataRecv_eq]; split_ifs <;> rfl
    have hm : (OnDataRecv s e.f e.arrival).myData_f = e.f := by
      rw [OnDataRecv_eq]; split_ifs <;> rfl
    have h8 : toUInt8 e.f = e.f := by
      rcases he with h | h <;> rw [h] <;> rfl
    have hpin : (deliver s e).2.pins = [(PS4_Button, e.f), (Status_LED, e.f)] := by
      unfold deliver
      rw [loop_pins, hr, if_pos rfl, processPacket_snd, hm, h8]
    exact List.Forall₂.cons ⟨hst, hpin⟩
      (ih (step s e) (fun x hx => hf x (List.mem_cons_of_mem e hx)))

/-- C5 at a concrete run: press at 1000 ms, release at 1200 ms, press at 5000 ms. -/
theorem C5_state_mirrors_payload_witness :
    List.Forall₂
      (fun (e : Ev) (r : State × TickOut) =>
        r.1.state = e.f ∧ r.2.pins = [(PS4_Button, e.f), (Status_LED, e.f)])
      shortRun (trace init shortRun) :=
  C5_state_mirrors_payload init shortRun (by decide)

/-! ## C6–C10: the display encoder -/

/-- C6: `showDisplay time` asks the driver for the sentinel (`displayError`, no
digit and point arrays) if and only if `time` is 0; in particular
`showDisplay 0` is the sentinel, and for every nonzero `time` the one call made
is `display` with two six-slot arrays. -/
theorem C6_sentinel_iff_zero (time : Int) :
    (showDisplay time = Display.displayError ↔ time = 0)
      ∧ showDisplay 0 = Display.displayError
      ∧ (time ≠ 0 → ∃ d p, showDisplay time = Display.display d p
          ∧ d.length = 6 ∧ p.length = 6) := by
  have hnz : time ≠ 0 → ∃ d p, showDisplay time = Display.display d p
      ∧ d.length = 6 ∧ p.length = 6 := by
    intro h
    rw [showDisplay_eq, if_neg h]
    by_cases hlt : toInt32 (Int.tdiv time 1000) < 600
    · rw [if_pos hlt]; exact ⟨_, _, rfl, rfl, rfl⟩
    · rw [if_neg hlt]; exact ⟨_, _, rfl, rfl, rfl⟩
  refine ⟨⟨fun h => ?_, fun h => by rw [h]; rfl⟩, rfl, hnz⟩
  by_contra hne
  obtain ⟨d, p, hd, -, -⟩ := hnz hne
  rw [hd] at h
  exact Display.noConfusion h

/-- C6 at the concrete time 59900: not the sentinel, one six-slot frame. -/
theorem C6_sentinel_iff_zero_witness :
    (showDisplay 59900 = Display.displayError ↔ (59900 : Int) = 0)
      ∧ showDisplay 0 = Display.displayError
      ∧ ((59900 : Int) ≠ 0 → ∃ d p, showDisplay 59900 = Display.display d p
          ∧ d.length = 6 ∧ p.length = 6) :=
  C6_sentinel_iff_zero 59900

/-- C7: for every `elapsedMs` with `0 < elapsedMs < 600000`, writing
`sec = elapsedMs / 1000`, the frame `showDisplay` passes to the display has the
digit array `[elapsedMs % 1000 / 100, BLANK, sec % 10, sec % 60 / 10, BLANK,
sec / 60]` (index 0 to 5) and all six decimal points off. -/
theorem C7_short_layout (elapsedMs : Int) (h0 : 0 < elapsedMs) (h : elapsedMs < 600000) :
    showDisplay elapsedMs =
      Display.display
        [elapsedMs % 1000 / 100, BLANK, elapsedMs / 1000 % 10, elapsedMs / 1000 % 60 / 10,
          BLANK, elapsedMs / 1000 / 60]
        [POINT_OFF, POINT_OFF, POINT_OFF, POINT_OFF, POINT_OFF, POINT_OFF] := by
  rw [showDisplay_pos elapsedMs h0 (by omega), if_pos (by omega)]
  rfl

/-- C7 at the time 59900 of the claim: digits `[9, 10, 9, 5, 10, 0]`, all points off. -/
theorem C7_short_layout_witness :
    showDisplay 59900 = Display.display [9, 10, 9, 5, 10, 0] [0, 0, 0, 0, 0, 0] :=
  C7_short_layout 59900 (by decide) (by decide)

/-- C8: for every `elapsedMs` below `2^31` with `sec = elapsedMs / 1000 ≥ 600`,
the decimal-point array of the frame has slots 1 and 3 on, slot 5 on exactly
when `sec ≥ 3600` (and off otherwise), and slots 0, 2 and 4 off. -/
theorem C8_full_layout_points (elapsedMs : Int) (h600 : 600 ≤ elapsedMs / 1000)
    (h31 : elapsedMs < 2147483648) :
    ∃ d p5, showDisplay elapsedMs =
        Display.display d [POINT_OFF, POINT_ON, POINT_OFF, POINT_ON, POINT_OFF, p5]
      ∧ (p5 = POINT_ON ↔ 3600 ≤ elapsedMs / 1000)
      ∧ (p5 = POINT_OFF ↔ elapsedMs / 1000 < 3600) := by
  rw [showDisplay_pos elapsedMs (by omega) h31, if_neg (by omega)]
  refine ⟨_, _, rfl, ?_, ?_⟩
  · by_cases h36 : elapsedMs / 1000 ≥ 3600
    · rw [if_pos h36]; exact ⟨fun _ => h36, fun _ => rfl⟩
    · rw [if_neg h36]; exact ⟨fun hp => absurd hp (by decide), fun hp => absurd hp h36⟩
  · by_cases h36 : elapsedMs / 1000 ≥ 3600
    · rw [if_pos h36]; exact ⟨fun hp => absurd hp (by decide), fun hp => by omega⟩
    · rw [if_neg h36]; exact ⟨fun _ => by omega, fun _ => rfl⟩

/-- C8 at the time 3661000 of the claim (1 h 1 min 1 s): points on at slots 1,
3 and 5, off at slots 0, 2 and 4. -/
theorem C8_full_layout_points_witness :
    ∃ d p5, showDisplay 3661000 =
        Display.display d [POINT_OFF, POINT_ON, POINT_OFF, POINT_ON, POINT_OFF, p5]
      ∧ (p5 = POINT_ON ↔ (3600 : Int) ≤ 3661000 / 1000)
      ∧ (p5 = POINT_OFF ↔ (3661000 : Int) / 1000 < 3600) :=
  C8_full_layout_points 3661000 (by decide) (by decide)

/-- C9, the code at a failing input: at 3661000 ms (1 h 1 min 1 s, so
`elapsedMs / 1000 = 3661`) slot 4 holds `sec / 600 = 6`, not the tens digit of
the minutes within the hour, and reading the frame back under the layout rules
gives 7261 seconds. -/
theorem C9_round_trip_fails_at_3661000 :
    showDisplay 3661000 = Display.display [0, 1, 0, 1, 6, 1] [0, 1, 0, 1, 0, 1]
      ∧ decodeFrame 3661000 (showDisplay 3661000) = some 7261
      ∧ (3661000 : Int) / 1000 = 3661 := by
  decide

/-- C10, the code at a failing input: at 7200000 ms (2 h) slot 4 of the frame
holds 12, which is neither a digit `0..9` nor `BLANK`; at 6000000 ms (1 h
40 min) slot 4 of the full layout holds the value of `BLANK`. -/
theorem C10_digit_out_of_range_at_7200000 :
    showDisplay 7200000 = Display.display [0, 0, 0, 0, 12, 2] [0, 1, 0, 1, 0, 1]
      ∧ showDisplay 6000000 = Display.display [0, 0, 0, 0, BLANK, 1] [0, 1, 0, 1, 0, 1] := by
  decide

/-! ## C11: what `loop` passes to `showDisplay` -/

/-- C11: in every state reached from the initial state by any sequence of
received packets and passes of `loop`, at the point where a pass of `loop` calls
`showDisplay(timediff)`: if `timerstart` is false then `timediff` is 0, so the
argument is 0 and the sentinel is shown; and if `timerstart` is true then
`timediff` is `(now - t2) mod 2^32`, `now` being the clock reading of that pass. -/
theorem C11_display_argument (l : List Action) (Th Td : Nat) :
    ((loop (exec init l) Th Td).1.timerstart = false →
        (loop (exec init l) Th Td).1.timediff = 0
          ∧ (loop (exec init l) Th Td).2.shown = 0
          ∧ (loop (exec init l) Th Td).2.frame = Display.displayError)
      ∧ ((loop (exec init l) Th Td).1.timerstart = true →
          (loop (exec init l) Th Td).1.timediff
            = sub32 (millis Td) (loop (exec init l) Th Td).1.t2) := by
  refine ⟨fun h => ?_, fun h => loop_armed_timediff _ Th Td h⟩
  have hz : (loop (exec init l) Th Td).1.timediff = 0 :=
    loop_zero _ Th Td (exec_zero l init (fun _ => rfl)) h
  refine ⟨hz, ?_, ?_⟩
  · rw [loop_shown, hz]; rfl
  · rw [loop_frame, hz]; rfl

/-- C11 at a concrete run: the pass at 7003 ms that processes the release of a
hold from 1000 ms to 7000 ms. -/
theorem C11_display_argument_witness :
    ((loop (exec init holdPending) 7003 7004).1.timerstart = false →
        (loop (exec init holdPending) 7003 7004).1.timediff = 0
          ∧ (loop (exec init holdPending) 7003 7004).2.shown = 0
          ∧ (loop (exec init holdPending) 7003 7004).2.frame = Display.displayError)
      ∧ ((loop (exec init holdPending) 7003 7004).1.timerstart = true →
          (loop (exec init holdPending) 7003 7004).1.timediff
            = sub32 (millis 7004) (loop (exec init holdPending) 7003 7004).1.t2) :=
  C11_display_argument holdPending 7003 7004

/-! ## C12: a release before any press -/

/-- C12, the code at a failing input: in the initial state, where no press has
been received and `t0` still holds its initial value 0, a release that arrives
at 6000 ms and is processed by the pass of `loop` that reads the clock at
6003 ms leaves `timerstart` true and `t2 = 6000`: the hold check computes
`millis() - t0 = 6003 > 5000` although no press was ever recorded. -/
theorem C12_arms_without_press_at_6000 :
    init.t0 = 0 ∧ init.timerstart = false
      ∧ lateRelease.f = 0 ∧ lateRelease.arrival = 6000 ∧ lateRelease.tick.hold = 6003
      ∧ (deliver init lateRelease).1.timerstart = true
      ∧ (deliver init lateRelease).1.t2 = 6000 := by
  decide

/-! ## C13: a payload other than 0 and 1 -/

/-- C13, as stated, fails: in the initial state a packet with payload 2 that
arrives at 1000 ms is not dropped: after the next pass of `loop`, `state` is 2,
`t1` is 1000, the value 2 has been written to both pins and the detector has
counted a slow transition. -/
theorem C13_counterexample :
    init.state = 0 ∧ init.t1 = 0
      ∧ (deliver init oddPacket).1.state = 2
      ∧ (deliver init oddPacket).1.t1 = 1000
      ∧ (deliver init oddPacket).2.pins = [(PS4_Button, 2), (Status_LED, 2)] := by
  decide

/-- C13, amended: for every payload `f` other than 0 and 1 and every prior
state, receiving the packet and running the next pass of `loop` handles it as
an edge: `t1` becomes the arrival reading, `state` becomes `f`, `f` (as
`uint8_t`) is written to both pins, and `triplePressReset` runs on the new `t1`;
the hold check is skipped, so `t0` and `t2` are unchanged and `timerstart` is
true afterwards only if it was true before. -/
theorem C13_other_payload (s : State) (f : Int) (T : Nat) (k : Tick)
    (hf0 : f ≠ 0) (hf1 : f ≠ 1) :
    (deliver s ⟨f, T, k, []⟩).1.state = f
      ∧ (deliver s ⟨f, T, k, []⟩).1.t0 = s.t0
      ∧ (deliver s ⟨f, T, k, []⟩).1.t1 = millis T
      ∧ (deliver s ⟨f, T, k, []⟩).1.t2 = s.t2
      ∧ (deliver s ⟨f, T, k, []⟩).2.pins = [(PS4_Button, toUInt8 f), (Status_LED, toUInt8 f)]
      ∧ ((deliver s ⟨f, T, k, []⟩).1.timerstart = true → s.timerstart = true)
      ∧ (deliver s ⟨f, T, k, []⟩).1.triple_counter =
          (if fastCond s.t0 (millis T) then
            if toInt8 (s.triple_counter + 1) ≥ 5 then 0 else toInt8 (s.triple_counter + 1)
          else 0) := by
  have hq : fiveSecondsPressed (latched s f T) k.hold = latched s f T :=
    hold_quiet _ _ (Or.inl (by simpa using hf0))
  have hd : (deliver s ⟨f, T, k, []⟩).1
      = refresh (triplePressReset (latched s f T)) k.disp := by
    rw [deliver_fst]; exact congrArg (fun x => refresh (triplePressReset x) k.disp) hq
  refine ⟨?_, ?_, ?_, ?_, deliver_pins s _, fun h => ?_, ?_⟩
  · rw [hd]; simp
  · rw [hd]; simp [hf1]
  · rw [hd]; simp [hf1]
  · rw [hd]; simp
  · rw [hd, refresh_timerstart] at h
    simpa using triplePressReset_timerstart_le _ h
  · rw [hd, refresh_triple_counter, triplePressReset_triple_counter]
    simp [hf1]

/-- C13 amended at a concrete packet: payload 2 at 1000 ms in the initial state. -/
theorem C13_other_payload_witness :
    (deliver init ⟨2, 1000, soonAfter 1000, []⟩).1.state = 2
      ∧ (deliver init ⟨2, 1000, soonAfter 1000, []⟩).1.t0 = init.t0
      ∧ (deliver init ⟨2, 1000, soonAfter 1000, []⟩).1.t1 = millis 1000
      ∧ (deliver init ⟨2, 1000, soonAfter 1000, []⟩).1.t2 = init.t2
      ∧ (deliver init ⟨2, 1000, soonAfter 1000, []⟩).2.pins
          = [(PS4_Button, toUInt8 2), (Status_LED, toUInt8 2)]
      ∧ ((deliver init ⟨2, 1000, soonAfter 1000, []⟩).1.timerstart = true
          → init.timerstart = true)
      ∧ (deliver init ⟨2, 1000, soonAfter 1000, []⟩).1.triple_counter =
          (if fastCond init.t0 (millis 1000) then
            if toInt8 (init.triple_counter + 1) ≥ 5 then 0
            else toInt8 (init.triple_counter + 1)
          else 0) :=
  C13_other_payload init 2 1000 (soonAfter 1000) (by decide) (by decide)

/-! ## C14: a packet is processed once -/

/-- C14: for every state with no notification pending (`received` false), a
pass of `loop` changes nothing but `timediff`, and that only when `timerstart`
is true, and writes nothing to the pins; and for every state, the pass of `loop`
leaves `received` false, so that the passes that follow without a new packet
are the timer refresh alone: they leave `state`, `t0`, `t1`, `t2`,
`triple_counter` and `timerstart` as they are and run neither the hold check
nor the fast-repeat detector. -/
theorem C14_processed_once (s : State) (Th Td : Nat) (l : List Tick) :
    (s.received = false →
        (loop s Th Td).1
            = { s with timediff := if s.timerstart then sub32 (millis Td) s.t2 else s.timediff }
          ∧ (loop s Th Td).2.pins = [])
      ∧ (loop s Th Td).1.received = false
      ∧ ticks (loop s Th Td).1 l = l.foldl (fun x k => refresh x k.disp) (loop s Th Td).1
      ∧ (ticks (loop s Th Td).1 l).received = false
      ∧ (ticks (loop s Th Td).1 l).state = (loop s Th Td).1.state
      ∧ (ticks (loop s Th Td).1 l).t0 = (loop s Th Td).1.t0
      ∧ (ticks (loop s Th Td).1 l).t1 = (loop s Th Td).1.t1
      ∧ (ticks (loop s Th Td).1 l).t2 = (loop s Th Td).1.t2
      ∧ (ticks (loop s Th Td).1 l).triple_counter = (loop s Th Td).1.triple_counter
      ∧ (ticks (loop s Th Td).1 l).timerstart = (loop s Th Td).1.timerstart := by
  have hrec : (loop s Th Td).1.received = false := loop_received s Th Td
  obtain ⟨i1, i2, i3, i4, i5, -⟩ := ticks_idle l (loop s Th Td).1 hrec
  refine ⟨fun h => ⟨?_, ?_⟩, hrec, ?_, i1, i5, ticks_t0 l _, ticks_t1 l _, i4, i3, i2⟩
  · rw [loop_idle s Th Td h]
    unfold refresh
    by_cases ht : s.timerstart = true
    · rw [if_pos ht, if_pos ht]
    · rw [if_neg ht, if_neg ht]
  · rw [loop_pins, h]; rfl
  · exact ticks_refresh l _ hrec

/-- C14 at a concrete run: the pass that processes the release of a hold, and
two passes after it. -/
theorem C14_processed_once_witness :
    ((exec init holdPending).received = false →
        (loop (exec init holdPending) 7003 7004).1
            = { exec init holdPending with
                timediff := if (exec init holdPending).timerstart
                  then sub32 (millis 7004) (exec init holdPending).t2
                  else (exec init holdPending).timediff }
          ∧ (loop (exec init holdPending) 7003 7004).2.pins = [])
      ∧ (loop (exec init holdPending) 7003 7004).1.received = false
      ∧ ticks (loop (exec init holdPending) 7003 7004).1 [soonAfter 7010, soonAfter 7020]
          = [soonAfter 7010, soonAfter 7020].foldl (fun x k => refresh x k.disp)
              (loop (exec init holdPending) 7003 7004).1
      ∧ (ticks (loop (exec init holdPending) 7003 7004).1
            [soonAfter 7010, soonAfter 7020]).received = false
      ∧ (ticks (loop (exec init holdPending) 7003 7004).1
            [soonAfter 7010, soonAfter 7020]).state
          = (loop (exec init holdPending) 7003 7004).1.state
      ∧ (ticks (loop (exec init holdPending) 7003 7004).1
            [soonAfter 7010, soonAfter 7020]).t0
          = (loop (exec init holdPending) 7003 7004).1.t0
      ∧ (ticks (loop (exec init holdPending) 7003 7004).1
            [soonAfter 7010, soonAfter 7020]).t1
          = (loop (exec init holdPending) 7003 7004).1.t1
      ∧ (ticks (loop (exec init holdPending) 7003 7004).1
            [soonAfter 7010, soonAfter 7020]).t2
          = (loop (exec init holdPending) 7003 7004).1.t2
      ∧ (ticks (loop (exec init holdPending) 7003 7004).1
            [soonAfter 7010, soonAfter 7020]).triple_counter
          = (loop (exec init holdPending) 7003 7004).1.triple_counter
      ∧ (ticks (loop (exec init holdPending) 7003 7004).1
            [soonAfter 7010, soonAfter 7020]).timerstart
          = (loop (exec init holdPending) 7003 7004).1.timerstart :=
  C14_processed_once (exec init holdPending) 7003 7004 [soonAfter 7010, soonAfter 7020]

/-! ## C15: the step of `triplePressReset` -/

/-- C15: the step of `triplePressReset`, for every state `x` in which a pass of
`loop` calls it in a run from the initial state (any packets and passes, at any
times), and more generally for every state whose `triple_counter` is an
`int8_t` value below 127: if the transition is classified slow,
`triple_counter` becomes 0 and `timerstart` and `timediff` are unchanged; if it
is classified fast and `triple_counter + 1 < 5`, `triple_counter` goes up by 1
and `timerstart` and `timediff` are unchanged; if it is classified fast and
`triple_counter + 1 ≥ 5`, `triple_counter` becomes 0, `timerstart` becomes false
and `timediff` becomes 0.  In all three cases `state`, `t0`, `t1` and `t2` are
unchanged. -/
theorem C15_detector_step (x : State) (l : List Action) (Th : Nat)
    (hx : x = atDetectorCall (exec init l) Th
      ∨ (-128 ≤ x.triple_counter ∧ x.triple_counter < 127)) :
    (fastCond x.t0 x.t1 = false →
        (triplePressReset x).triple_counter = 0
          ∧ (triplePressReset x).timerstart = x.timerstart
          ∧ (triplePressReset x).timediff = x.timediff)
      ∧ (fastCond x.t0 x.t1 = true → x.triple_counter + 1 < 5 →
          (triplePressReset x).triple_counter = x.triple_counter + 1
            ∧ (triplePressReset x).timerstart = x.timerstart
            ∧ (triplePressReset x).timediff = x.timediff)
      ∧ (fastCond x.t0 x.t1 = true → x.triple_counter + 1 ≥ 5 →
          (triplePressReset x).triple_counter = 0
            ∧ (triplePressReset x).timerstart = false
            ∧ (triplePressReset x).timediff = 0)
      ∧ (triplePressReset x).state = x.state
      ∧ (triplePressReset x).t0 = x.t0
      ∧ (triplePressReset x).t1 = x.t1
      ∧ (triplePressReset x).t2 = x.t2 := by
  have hr : -128 ≤ x.triple_counter ∧ x.triple_counter < 127 := by
    rcases hx with hx | hx
    · obtain ⟨h0, h4⟩ := exec_range l init (le_refl _) (by decide)
      have hc : x.triple_counter = (exec init l).triple_counter := by
        rw [hx]; unfold atDetectorCall; rw [fiveSecondsPressed_triple_counter]
      rw [hc]; omega
    · exact hx
  have hc : toInt8 (x.triple_counter + 1) = x.triple_counter + 1 := by
    unfold toInt8; omega
  refine ⟨fun h => ?_, fun h hlt => ?_, fun h hge => ?_, triplePressReset_state x,
    triplePressReset_t0 x, triplePressReset_t1 x, triplePressReset_t2 x⟩
  · rw [slow_resets_counter x h]; exact ⟨rfl, rfl, rfl⟩
  · rw [triplePressReset_eq, h, if_pos rfl, hc, if_neg (by omega)]
    exact ⟨rfl, rfl, rfl⟩
  · rw [triplePressReset_eq, h, if_pos rfl, hc, if_pos hge]
    exact ⟨rfl, rfl, rfl⟩

/-- C15 at a concrete call: the pass at 7503 ms that processes the pending
press of `fifthPending`, where the counter is at 4 and the timer is armed. -/
theorem C15_detector_step_witness :
    (fastCond (atDetectorCall (exec init fifthPending) 7503).t0
          (atDetectorCall (exec init fifthPending) 7503).t1 = false →
        (triplePressReset (atDetectorCall (exec init fifthPending) 7503)).triple_counter = 0
          ∧ (triplePressReset (atDetectorCall (exec init fifthPending) 7503)).timerstart
              = (atDetectorCall (exec init fifthPending) 7503).timerstart
          ∧ (triplePressReset (atDetectorCall (exec init fifthPending) 7503)).timediff
              = (atDetectorCall (exec init fifthPending) 7503).timediff)
      ∧ (fastCond (atDetectorCall (exec init fifthPending) 7503).t0
          (atDetectorCall (exec init fifthPending) 7503).t1 = true →
          (atDetectorCall (exec init fifthPending) 7503).triple_counter + 1 < 5 →
          (triplePressReset (atDetectorCall (exec init fifthPending) 7503)).triple_counter
              = (atDetectorCall (exec init fifthPending) 7503).triple_counter + 1
            ∧ (triplePressReset (atDetectorCall (exec init fifthPending) 7503)).timerstart
              = (atDetectorCall (exec init fifthPending) 7503).timerstart
            ∧ (triplePressReset (atDetectorCall (exec init fifthPending) 7503)).timediff
              = (atDetectorCall (exec init fifthPending) 7503).timediff)
      ∧ (fastCond (atDetectorCall (exec init fifthPending) 7503).t0
          (atDetectorCall (exec init fifthPending) 7503).t1 = true →
          (atDetectorCall (exec init fifthPending) 7503).triple_counter + 1 ≥ 5 →
          (triplePressReset (atDetectorCall (exec init fifthPending) 7503)).triple_counter = 0
            ∧ (triplePressReset (atDetectorCall (exec init fifthPending) 7503)).timerstart
              = false
            ∧ (triplePressReset (atDetectorCall (exec init fifthPending) 7503)).timediff = 0)
      ∧ (triplePressReset (atDetectorCall (exec init fifthPending) 7503)).state
          = (atDetectorCall (exec init fifthPending) 7503).state
      ∧ (triplePressReset (atDetectorCall (exec init fifthPending) 7503)).t0
          = (atDetectorCall (exec init fifthPending) 7503).t0
      ∧ (triplePressReset (atDetectorCall (exec init fifthPending) 7503)).t1
          = (atDetectorCall (exec init fifthPending) 7503).t1
      ∧ (triplePressReset (atDetectorCall (exec init fifthPending) 7503)).t2
          = (atDetectorCall (exec init fifthPending) 7503).t2 :=
  C15_detector_step (atDetectorCall (exec init fifthPending) 7503) fifthPending 7503
    (Or.inl rfl)

/-! ## C16 and C17: the classification under `uint32_t` arithmetic -/

/-- C16, as stated, fails: with `t0 = 0` and `t1 = 1000` the difference
`t1 - t0` is 1000, which is neither below 333 nor above `-333` converted to
`uint32_t` (4294966963), so the condition of `triplePressReset` is false and the
transition is classified slow. -/
theorem C16_counterexample :
    sub32 1000 0 = 1000 ∧ toUInt32 (-333) = 4294966963
      ∧ decide (sub32 1000 0 > toUInt32 (-333)) = false
      ∧ fastCond 0 1000 = false := by
  decide

/-- C16, amended: on the `uint32_t` timestamps the comparison `t1 - t0 > -333`
is true exactly when `(t1 - t0) mod 2^32` is above `2^32 - 333`, that is when
`t0` is 1 to 332 ms after `t1` on the 32-bit clock; the whole condition
`(t1 - t0 < 333) || (t1 - t0 > -333)` is false, and the transition classified
slow, exactly when `333 ≤ (t1 - t0) mod 2^32 ≤ 2^32 - 333`. -/
theorem C16_comparison_rule (t0 t1 : Nat) :
    (sub32 t1 t0 > toUInt32 (-333) ↔ 4294966963 < sub32 t1 t0)
      ∧ (sub32 t1 t0 > toUInt32 (-333) ↔ 0 < sub32 t0 t1 ∧ sub32 t0 t1 < 333)
      ∧ (fastCond t0 t1 = false ↔ 333 ≤ sub32 t1 t0 ∧ sub32 t1 t0 ≤ 4294966963) := by
  refine ⟨by rw [toUInt32_neg333], ?_, ?_⟩
  · rw [toUInt32_neg333]; unfold sub32; omega
  · rw [Bool.eq_false_iff, Ne, fastCond_iff]; omega

/-- C17: for all `uint32_t` readings `t0` and `t1` the fast branch of
`triplePressReset` is taken if and only if `(t1 - t0) mod 2^32 < 333` or
`0 < (t0 - t1) mod 2^32 < 333`, that is if and only if the circular distance
between the two readings is below 333; so the pass that processes a press
arriving less than 333 ms after the previous release takes the fast branch of
the detector, just like the pass that processes a release arriving less than
333 ms after its press. -/
theorem C17_exact_classification (t0 t1 : Nat) (s : State) (A B : Nat) (k : Tick)
    (idle : List Tick) :
    (fastCond t0 t1 = true ↔ sub32 t1 t0 < 333 ∨ (0 < sub32 t0 t1 ∧ sub32 t0 t1 < 333))
      ∧ (fastCond t0 t1 = true ↔ min (sub32 t1 t0) (sub32 t0 t1) < 333)
      ∧ (s.t1 = millis A → A ≤ B → B - A < 333 →
          fastCond (millis B) s.t1 = true
            ∧ (step s ⟨1, B, k, idle⟩).triple_counter =
                (if toInt8 (s.triple_counter + 1) ≥ 5 then 0
                  else toInt8 (s.triple_counter + 1)))
      ∧ (s.t0 = millis A → A ≤ B → B - A < 333 →
          fastCond s.t0 (millis B) = true
            ∧ (step s ⟨0, B, k, idle⟩).triple_counter =
                (if toInt8 (s.triple_counter + 1) ≥ 5 then 0
                  else toInt8 (s.triple_counter + 1))) := by
  refine ⟨?_, ?_, fun hA hle hlt => ?_, fun hA hle hlt => ?_⟩
  · rw [fastCond_iff]; unfold sub32; omega
  · rw [fastCond_iff, min_lt_iff]; unfold sub32; omega
  · have hfast : fastCond (millis B) s.t1 = true := by
      rw [fastCond_iff, hA]; unfold sub32 millis; omega
    refine ⟨hfast, ?_⟩
    rw [step_counter_eq]
    simp only [stamp, if_true]
    rw [hfast, if_pos rfl]
  · have hfast : fastCond s.t0 (millis B) = true := by
      rw [fastCond_iff, hA]; unfold sub32 millis; omega
    refine ⟨hfast, ?_⟩
    rw [step_counter_eq]
    simp only [stamp, if_false, zero_ne_one]
    rw [hfast, if_pos rfl]

/-- C17 at concrete readings and a concrete run: from `armedZero` (release at
7000 ms), a press at 7100 ms. -/
theorem C17_exact_classification_witness :
    (fastCond 7100 7000 = true
        ↔ sub32 7000 7100 < 333 ∨ (0 < sub32 7100 7000 ∧ sub32 7100 7000 < 333))
      ∧ (fastCond 7100 7000 = true ↔ min (sub32 7000 7100) (sub32 7100 7000) < 333)
      ∧ (armedZero.t1 = millis 7000 → 7000 ≤ 7100 → 7100 - 7000 < 333 →
          fastCond (millis 7100) armedZero.t1 = true
            ∧ (step armedZero ⟨1, 7100, soonAfter 7100, []⟩).triple_counter =
                (if toInt8 (armedZero.triple_counter + 1) ≥ 5 then 0
                  else toInt8 (armedZero.triple_counter + 1)))
      ∧ (armedZero.t0 = millis 7000 → 7000 ≤ 7100 → 7100 - 7000 < 333 →
          fastCond armedZero.t0 (millis 7100) = true
            ∧ (step armedZero ⟨0, 7100, soonAfter 7100, []⟩).triple_counter =
                (if toInt8 (armedZero.triple_counter + 1) ≥ 5 then 0
                  else toInt8 (armedZero.triple_counter + 1))) :=
  C17_exact_classification 7100 7000 armedZero 7000 7100 (soonAfter 7100) []

/-! ## C18: the elapsed time across a wrap of the clock -/

/-- C18: for every baseline `t2` and every true elapsed duration `e` below
`2^31` ms, when a pass of `loop` ends with the timer armed and its clock
reading is `(t2 + e) mod 2^32`, the value the pass stores in `timediff` and
passes to `showDisplay` (converted to `int32_t`) is `e`, also when the reading
is numerically below `t2`. -/
theorem C18_elapsed_across_wrap (s : State) (Th Td e : Nat)
    (harmed : (loop s Th Td).1.timerstart = true) (he : e < 2147483648)
    (hnow : millis Td = ((loop s Th Td).1.t2 + e) % 4294967296) :
    (loop s Th Td).1.timediff = e ∧ (loop s Th Td).2.shown = e := by
  have htd : (loop s Th Td).1.timediff = e := by
    rw [loop_armed_timediff s Th Td harmed, hnow]
    unfold sub32; omega
  refine ⟨htd, ?_⟩
  rw [loop_shown, htd]
  unfold toInt32; omega

/-- C18 at a concrete wrap: baseline 4294967000, pass at `2^32 + 704` ms, where
the clock reads 704: the value shown is 1000. -/
theorem C18_elapsed_across_wrap_witness :
    (loop armedBeforeWrap 4294968000 4294968000).1.timediff = 1000
      ∧ (loop armedBeforeWrap 4294968000 4294968000).2.shown = (1000 : Nat) :=
  C18_elapsed_across_wrap armedBeforeWrap 4294968000 4294968000 1000
    (by decide) (by decide) (by decide)

/-! ## C19: the range of the counter -/

/-- C19: in every state reached from the initial state by any sequence of
received packets and passes of `loop`, `0 ≤ triple_counter ≤ 4`; the increment
in `triplePressReset` therefore never leaves `int8_t`, and the counter that
`triplePressReset` returns in the next pass is again within `0..4`, never 5. -/
theorem C19_counter_range (l : List Action) (Th : Nat) :
    (0 ≤ (exec init l).triple_counter ∧ (exec init l).triple_counter ≤ 4)
      ∧ toInt8 ((exec init l).triple_counter + 1) = (exec init l).triple_counter + 1
      ∧ (0 ≤ (processPacket (exec init l) Th).1.triple_counter
          ∧ (processPacket (exec init l) Th).1.triple_counter ≤ 4)
      ∧ (processPacket (exec init l) Th).1.triple_counter ≠ 5 := by
  obtain ⟨h0, h4⟩ := exec_range l init (le_refl _) (by decide)
  obtain ⟨p0, p4⟩ := processPacket_range (exec init l) Th h0 h4
  refine ⟨⟨h0, h4⟩, ?_, ⟨p0, p4⟩, by omega⟩
  unfold toInt8; omega

end G29
